import Mathlib

/-!
Verification of the NuMicro ISP flash driver (src/flash/nor/numicro.c).

The driver talks to an execution host (the debug adapter layer) through
`target_read_u32`, `target_write_u32`, `target_write_buffer`,
`target_alloc_working_area`, `target_free_working_area` and
`target_run_algorithm`.  We embed the driver shallowly: the host is an
oracle (`Host`) deciding the outcome of each call, and every driver
function is a function from an explicit machine state (`St`) to a result
paired with the next state.  The state records the sequence of register
writes the driver attempts (its observable protocol behaviour), the
working areas currently allocated, the sizes requested from the
allocator, and the flash bank structure the driver may mutate.
-/

namespace Numicro

/-! ### Register addresses and constants, from the source's defines -/

def NUMICRO_SYS_BASE : Nat := 0x50000000

def NUMICRO_SYS_WRPROT : Nat := 0x50000100

def NUMICRO_SYSCLK_AHBCLK : Nat := 0x50000204

def NUMICRO_FLASH_ISPCON : Nat := 0x5000C000

def NUMICRO_FLASH_ISPADR : Nat := 0x5000C004

def NUMICRO_FLASH_ISPDAT : Nat := 0x5000C008

def NUMICRO_FLASH_ISPCMD : Nat := 0x5000C00C

def NUMICRO_FLASH_ISPTRG : Nat := 0x5000C010

/-- Undocumented isp register (may be cheat register). -/
def NUMICRO_FLASH_CHEAT : Nat := 0x5000C01C

def NUMICRO_APROM_BASE : Nat := 0x00000000

def NUMICRO_DATA_BASE : Nat := 0x0001F000

def NUMICRO_LDROM_BASE : Nat := 0x00100000

def NUMICRO_CONFIG_BASE : Nat := 0x00300000

def NUMICRO_CONFIG0 : Nat := 0x5000C000

def NUMICRO_CONFIG1 : Nat := 0x5000C004

def AHBCLK_ISP_EN : Nat := 4

def AHBCLK_SRAM_EN : Nat := 16

def AHBCLK_TICK_EN : Nat := 32

def ISPCON_ISPEN : Nat := 1

def ISPCON_APUEN : Nat := 8

def ISPCON_CFGUEN : Nat := 16

def ISPCON_LDUEN : Nat := 32

def ISPCON_ISPFF : Nat := 64

def CONFIG0_LOCK_MASK : Nat := 2

def ISPCMD_READ : Nat := 0x00

def ISPCMD_WRITE : Nat := 0x21

def ISPCMD_ERASE : Nat := 0x22

/-- Undocumented isp Chip-Erase command. -/
def ISPCMD_CHIPERASE : Nat := 0x26

def ISPTRG_ISPGO : Nat := 1

def REG_KEY1 : Nat := 0x59

def REG_KEY2 : Nat := 0x16

def REG_KEY3 : Nat := 0x88

def NUMICRO_PAGESIZE : Nat := 512

/-! ### Error codes

The OpenOCD numeric error codes are defined in headers outside this file;
only their distinctness matters here, so they are an inductive type. -/

/-- Result codes the driver can return or receive from the target layer. -/
inductive Err where
  /-- ERROR_FAIL -/
  | fail : Err
  /-- ERROR_TARGET_NOT_HALTED -/
  | targetNotHalted : Err
  /-- ERROR_TARGET_RESOURCE_NOT_AVAILABLE -/
  | resourceNotAvailable : Err
  /-- ERROR_FLASH_OPERATION_FAILED -/
  | flashOperationFailed : Err
  /-- ERROR_FLASH_DST_BREAKS_ALIGNMENT -/
  | dstBreaksAlignment : Err
  /-- any other error code surfaced by the target layer -/
  | other : Nat → Err
deriving DecidableEq, Repr

/-- Decidable equality for `Except`, used to evaluate concrete runs. -/
instance exceptDecEq {ε α : Type} [DecidableEq ε] [DecidableEq α] :
    DecidableEq (Except ε α) := fun x y =>
  match x, y with
  | Except.ok a, Except.ok b =>
      if h : a = b then isTrue (by rw [h])
      else isFalse (fun c => h (Except.ok.inj c))
  | Except.error e, Except.error f =>
      if h : e = f then isTrue (by rw [h])
      else isFalse (fun c => h (Except.error.inj c))
  | Except.ok _, Except.error _ => isFalse (fun c => Except.noConfusion c)
  | Except.error _, Except.ok _ => isFalse (fun c => Except.noConfusion c)

/-! ### Data model -/

/-- One entry of `struct flash_sector`: offset, size, tri-state erased
flag (-1 unknown / 0 no / 1 yes) and protected flag. -/
structure Sector where
  offset : Nat
  size : Nat
  is_erased : Int
  is_protected : Int
deriving DecidableEq, Repr

/-- One region of `struct numicro_flash_bank_type`. -/
structure NumicroFlashBankType where
  base : Nat
  size : Nat
deriving DecidableEq, Repr

/-- One entry of `struct numicro_cpu_type`. -/
structure NumicroCpuType where
  partname : String
  partid : Nat
  n_banks : Nat
  bank : List NumicroFlashBankType
deriving DecidableEq, Repr

/-- The relevant fields of `struct flash_bank` plus the driver's private
`probed` flag and resolved part entry (`struct numicro_flash_bank`). -/
structure Bank where
  base : Nat
  size : Nat
  num_sectors : Nat
  sectors : List Sector
  probed : Bool
  cpu : Option NumicroCpuType
deriving DecidableEq, Repr

/-- Observable events the driver produces on the target. -/
inductive Ev where
  /-- a 32-bit register write attempt, `target_write_u32` (and the 4-byte
  `target_write_memory` of the fallback loop) -/
  | writeReg : Nat → Nat → Ev
  /-- a bulk buffer upload attempt, `target_write_buffer` (address, length) -/
  | writeBuf : Nat → Nat → Ev
  /-- `target_run_algorithm` (entry, source buffer, flash address, word count) -/
  | runAlg : Nat → Nat → Nat → Nat → Ev
  /-- `busy_sleep` of the given milliseconds -/
  | sleepMs : Nat → Ev
deriving DecidableEq, Repr

/-- The execution-host oracle.  Memory accesses are numbered by the order
they are issued (`St.idx`); buffer uploads, allocations and algorithm
runs have their own counters.  `none` means the call succeeds. -/
structure Host where
  /-- whether the CPU is halted (`target->state == TARGET_HALTED`) -/
  halted : Bool
  /-- `target->working_area_size` -/
  working_area_size : Nat
  /-- outcome of the n-th `target_read_u32`/`target_write_u32` call -/
  accessErr : Nat → Option Err
  /-- value returned by a `target_read_u32` of the given address when it
  is the n-th memory access -/
  readVal : Nat → Nat → Nat
  /-- outcome of the n-th `target_alloc_working_area` call: the address
  of the area on success, `none` on failure -/
  allocResult : Nat → Option Nat
  /-- outcome of the n-th `target_write_buffer` call -/
  wbufErr : Nat → Option Err
  /-- outcome of the n-th `target_run_algorithm` call -/
  runErr : Nat → Option Err

/-- The explicit machine state threaded through the driver. -/
structure St where
  /-- number of `target_read_u32`/`target_write_u32` calls issued -/
  idx : Nat
  /-- number of `target_alloc_working_area` calls issued -/
  allocIdx : Nat
  /-- number of `target_write_buffer` calls issued -/
  wbufIdx : Nat
  /-- number of `target_run_algorithm` calls issued -/
  runIdx : Nat
  /-- register writes, uploads, runs and sleeps, in order -/
  trace : List Ev
  /-- addresses of the working areas currently allocated -/
  liveAreas : List Nat
  /-- the sizes requested from `target_alloc_working_area`, in order -/
  allocReqs : List Nat
  /-- the flash bank the driver operates on -/
  bank : Bank
deriving DecidableEq, Repr

/-- Initial state over a given bank. -/
def st0 (bank : Bank) : St := ⟨0, 0, 0, 0, [], [], [], bank⟩

/-! The next few small state transformers exist so that concrete runs
stay feasible to evaluate: each step leaves a single application term
rather than a structure literal repeating the previous state. -/

/-- Count one memory access. -/
def St.tick (s : St) : St := { s with idx := s.idx + 1 }

/-- Append one event to the trace. -/
def St.addEv (s : St) (e : Ev) : St := { s with trace := s.trace ++ [e] }

/-- Count one buffer upload. -/
def St.wtick (s : St) : St := { s with wbufIdx := s.wbufIdx + 1 }

/-- Count one algorithm run. -/
def St.rtick (s : St) : St := { s with runIdx := s.runIdx + 1 }

/-- Record a successful allocation of the given requested size at the
given address. -/
def St.noteAllocOk (s : St) (size addr : Nat) : St :=
  { s with allocIdx := s.allocIdx + 1, allocReqs := s.allocReqs ++ [size],
           liveAreas := s.liveAreas ++ [addr] }

/-- Record a failed allocation of the given requested size. -/
def St.noteAllocFail (s : St) (size : Nat) : St :=
  { s with allocIdx := s.allocIdx + 1, allocReqs := s.allocReqs ++ [size] }

/-- Record the release of the working area at the given address. -/
def St.freeArea (s : St) (addr : Nat) : St :=
  { s with liveAreas := s.liveAreas.erase addr }

/-- Overwrite the protected flag of every sector of the bank. -/
def St.paintProtected (s : St) (flag : Int) : St :=
  { s with bank :=
     { s.bank with sectors :=
        s.bank.sectors.map (fun sec => { sec with is_protected := flag }) } }

/-- Driver computations: state in, result-or-error and state out.  The
state is retained on error so that the trace up to the failure remains
observable. -/
def M (α : Type) : Type := St → Except Err α × St

def M.pure {α : Type} (a : α) : M α := fun s => (Except.ok a, s)

def M.bind {α β : Type} (m : M α) (f : α → M β) : M β := fun s =>
  match m s with
  | (Except.ok a, s') => f a s'
  | (Except.error e, s') => (Except.error e, s')

def M.err {α : Type} (e : Err) : M α := fun s => (Except.error e, s)

/-! ### Host primitives -/

def target_read_u32 (h : Host) (addr : Nat) : M Nat := fun s =>
  match h.accessErr s.idx with
  | some e => (Except.error e, s.tick)
  | none => (Except.ok (h.readVal addr s.idx), s.tick)

def target_write_u32 (h : Host) (addr val : Nat) : M Unit := fun s =>
  match h.accessErr s.idx with
  | some e => (Except.error e, (s.addEv (Ev.writeReg addr val)).tick)
  | none => (Except.ok (), (s.addEv (Ev.writeReg addr val)).tick)

def busy_sleep (ms : Nat) : M Unit := fun s =>
  (Except.ok (), s.addEv (Ev.sleepMs ms))

def target_write_buffer (h : Host) (addr len : Nat) : M Unit := fun s =>
  match h.wbufErr s.wbufIdx with
  | some e => (Except.error e, (s.addEv (Ev.writeBuf addr len)).wtick)
  | none => (Except.ok (), (s.addEv (Ev.writeBuf addr len)).wtick)

def target_run_algorithm (h : Host) (entry src dst wcount : Nat) : M Unit := fun s =>
  match h.runErr s.runIdx with
  | some e => (Except.error e, (s.addEv (Ev.runAlg entry src dst wcount)).rtick)
  | none => (Except.ok (), (s.addEv (Ev.runAlg entry src dst wcount)).rtick)

/-- `target_alloc_working_area`: records the requested size; on success
the new area joins `liveAreas`.  The C call returns a status the callers
only compare with `ERROR_OK`, so the model returns an option. -/
def target_alloc_working_area (h : Host) (size : Nat) : M (Option Nat) := fun s =>
  match h.allocResult s.allocIdx with
  | some addr => (Except.ok (some addr), s.noteAllocOk size addr)
  | none => (Except.ok none, s.noteAllocFail size)

/-- `target_free_working_area`: the area leaves `liveAreas`.  The call
sites ignore its status. -/
def target_free_working_area (_h : Host) (addr : Nat) : M Unit := fun s =>
  (Except.ok (), s.freeArea addr)

/-! ### numicro_reg_unlock and numicro_init_isp -/

/-- `numicro_reg_unlock`: read WRPROT; when it reads 0 (protected) write
the three magic keys; re-read to log the outcome; never fails on a
still-protected result. -/
def numicro_reg_unlock (h : Host) : M Unit :=
  M.bind (target_read_u32 h NUMICRO_SYS_WRPROT) (fun is_protected =>
  M.bind (if is_protected == 0 then
            M.bind (target_write_u32 h NUMICRO_SYS_WRPROT REG_KEY1) (fun _ =>
            M.bind (target_write_u32 h NUMICRO_SYS_WRPROT REG_KEY2) (fun _ =>
            target_write_u32 h NUMICRO_SYS_WRPROT REG_KEY3))
          else M.pure ()) (fun _ =>
  M.bind (target_read_u32 h NUMICRO_SYS_WRPROT) (fun _ =>
  M.pure ())))

/-- `numicro_init_isp`: requires a halted CPU, unlocks the registers,
enables the ISP/SRAM/TICK clocks and the ISP mode bits by
read-modify-write, and writes 1 to the undocumented register. -/
def numicro_init_isp (h : Host) : M Unit := fun s =>
  if h.halted = false then (Except.error Err.targetNotHalted, s)
  else
    (M.bind (numicro_reg_unlock h) (fun _ =>
     M.bind (target_read_u32 h NUMICRO_SYSCLK_AHBCLK) (fun reg_stat =>
     M.bind (target_write_u32 h NUMICRO_SYSCLK_AHBCLK
               (reg_stat ||| (AHBCLK_ISP_EN ||| AHBCLK_SRAM_EN ||| AHBCLK_TICK_EN))) (fun _ =>
     M.bind (target_read_u32 h NUMICRO_FLASH_ISPCON) (fun reg_stat2 =>
     M.bind (target_write_u32 h NUMICRO_FLASH_ISPCON
               (reg_stat2 ||| (ISPCON_ISPFF ||| ISPCON_LDUEN ||| ISPCON_APUEN |||
                               ISPCON_CFGUEN ||| ISPCON_ISPEN))) (fun _ =>
     target_write_u32 h NUMICRO_FLASH_CHEAT 1))))) ) s

/-! ### numicro_fmc_cmd -/

/-- The poll loop of `numicro_fmc_cmd`: read ISPTRG and stop as soon as
the GO bit is clear; otherwise consume one unit of the timeout counter
(initially 100), sleeping 1 ms between polls, and fail with ERROR_FAIL
when the counter is exhausted. -/
def fmcPoll (h : Host) (fuel : Nat) : M Nat :=
  @Nat.rec (fun _ => M Nat)
    (M.bind (target_read_u32 h NUMICRO_FLASH_ISPTRG) (fun status =>
      if status &&& ISPTRG_ISPGO == 0 then M.pure status
      else M.err Err.fail))
    (fun _ ih =>
      M.bind (target_read_u32 h NUMICRO_FLASH_ISPTRG) (fun status =>
        if status &&& ISPTRG_ISPGO == 0 then M.pure status
        else M.bind (busy_sleep 1) (fun _ => ih)))
    fuel



/-- `numicro_fmc_cmd`: write command, data, address, then trigger GO;
poll with `fmcPoll`; finally read back ISPDAT as the result. -/
def numicro_fmc_cmd (h : Host) (cmd addr wdata : Nat) : M Nat :=
  M.bind (target_write_u32 h NUMICRO_FLASH_ISPCMD cmd) (fun _ =>
  M.bind (target_write_u32 h NUMICRO_FLASH_ISPDAT wdata) (fun _ =>
  M.bind (target_write_u32 h NUMICRO_FLASH_ISPADR addr) (fun _ =>
  M.bind (target_write_u32 h NUMICRO_FLASH_ISPTRG ISPTRG_ISPGO) (fun _ =>
  M.bind (fmcPoll h 100) (fun _ =>
  target_read_u32 h NUMICRO_FLASH_ISPDAT)))))

/-! ### numicro_erase -/

/-- The erase/fallback-write poll loop: same bounded retry as `fmcPoll`
but the completion test is the whole register reading zero. -/
def pollZero (h : Host) (fuel : Nat) : M Nat :=
  @Nat.rec (fun _ => M Nat)
    (M.bind (target_read_u32 h NUMICRO_FLASH_ISPTRG) (fun status =>
      if status == 0 then M.pure status
      else M.err Err.fail))
    (fun _ ih =>
      M.bind (target_read_u32 h NUMICRO_FLASH_ISPTRG) (fun status =>
        if status == 0 then M.pure status
        else M.bind (busy_sleep 1) (fun _ => ih)))
    fuel



/-- The failure-flag inspection shared by the erase loop and the write
tail: read ISPCON and, when ISPFF is set, clear it by writing the value
back with ISPFF still set (the flag clears on write-of-1). -/
def ispffClear (h : Host) : M Unit :=
  M.bind (target_read_u32 h NUMICRO_FLASH_ISPCON) (fun status =>
    if status &&& ISPCON_ISPFF != 0 then
      target_write_u32 h NUMICRO_FLASH_ISPCON (status ||| ISPCON_ISPFF)
    else M.pure ())

/-- The body of the erase loop for one sector: write the sector's
absolute address, trigger GO, poll for zero, inspect the failure flag.
Sector `i` is read from the bank in the state; the theorems keep `i`
within bounds. -/
def eraseSector (h : Host) (i : Nat) : M Unit := fun s =>
  (M.bind (target_write_u32 h NUMICRO_FLASH_ISPADR
             (s.bank.base + (s.bank.sectors.getD i ⟨0, 0, 0, 0⟩).offset)) (fun _ =>
   M.bind (target_write_u32 h NUMICRO_FLASH_ISPTRG ISPTRG_ISPGO) (fun _ =>
   M.bind (pollZero h 100) (fun _ =>
   ispffClear h)))) s

/-- The erase loop over the list of sector indices `first..last`. -/
def eraseLoop (h : Host) : List Nat → M Unit
  | [] => M.pure ()
  | i :: rest => M.bind (eraseSector h i) (fun _ => eraseLoop h rest)

/-- `numicro_erase`: requires a halted CPU, runs the ISP init, writes the
erase command once, then erases each sector of the inclusive range. -/
def numicro_erase (h : Host) (first last : Nat) : M Unit := fun s =>
  if h.halted = false then (Except.error Err.targetNotHalted, s)
  else
    (M.bind (numicro_init_isp h) (fun _ =>
     M.bind (target_write_u32 h NUMICRO_FLASH_ISPCMD ISPCMD_ERASE) (fun _ =>
     eraseLoop h (List.range' first (last + 1 - first))))) s

/-! ### numicro_writeblock -/

/-- The on-target programming routine, byte for byte
(`numicro_flash_write_code`); only its length feeds the model. -/
def numicro_flash_write_code : List Nat :=
  [0x04, 0x1C, 0x00, 0x23,
   0x0D, 0x1A, 0x67, 0x19, 0x93, 0x42, 0x0C, 0xD0,
   0x08, 0x4E, 0x37, 0x60, 0x80, 0xCC, 0x08, 0x4D, 0x2F, 0x60,
   0x08, 0x4D, 0x01, 0x26, 0x2E, 0x60,
   0x2F, 0x68, 0xFF, 0x07, 0xFC, 0xD4,
   0x01, 0x33, 0xEE, 0xE7,
   0x05, 0x4B, 0x18, 0x68, 0x40, 0x21, 0x08, 0x40,
   0x00, 0xBE,
   0x04, 0xC0, 0x00, 0x50, 0x08, 0xC0, 0x00, 0x50,
   0x10, 0xC0, 0x00, 0x50, 0x00, 0xC0, 0x00, 0x50]

/-- The data-buffer allocation loop of `numicro_writeblock`: retry the
allocation, quartering the size after each failure; once the size would
drop to 256 bytes or below, free the routine area and give up with
resource-unavailable.  `fuel` only bounds the number of iterations; the
callers pass `fuel = buffer_size`, which exceeds the iteration count
because the size shrinks fourfold per iteration, so the fuel-exhausted
branch is unreachable. -/
def allocLoopSrc (h : Host) (algoAddr : Nat) (fuel : Nat) : Nat → M Nat :=
  @Nat.rec (fun _ => Nat → M Nat)
    (fun _ => M.err Err.resourceNotAvailable)
    (fun _ ih buffer_size => fun s =>
      match target_alloc_working_area h buffer_size s with
      | (Except.ok (some addr), s') => (Except.ok addr, s')
      | (Except.ok none, s') =>
          if buffer_size / 4 ≤ 256 then
            match target_free_working_area h algoAddr s' with
            | (_, s'') => (Except.error Err.resourceNotAvailable, s'')
          else ih (buffer_size / 4) s'
      | (Except.error e, s') => (Except.error e, s'))
    fuel


/-- The chunked programming loop of `numicro_writeblock`: upload up to
`buffer_size/4` words to the scratch buffer, run the routine, advance.
A failed upload breaks with its error; a failed run breaks with
operation-failed.  `fuel` is passed as the initial word count, which
bounds the iterations because every iteration consumes at least one
word. -/
def wbLoop (h : Host) (algoAddr srcAddr buffer_size : Nat) (fuel : Nat) :
    Nat → Nat → List Nat → M Unit :=
  @Nat.rec (fun _ => Nat → Nat → List Nat → M Unit)
    (fun _ _ _ => M.pure ())
    (fun _ ih count address buffer => fun s =>
      if count == 0 then (Except.ok (), s)
      else
        let thisrun := if buffer_size / 4 < count then buffer_size / 4 else count
        match target_write_buffer h srcAddr (thisrun * 4) s with
        | (Except.error e, s') => (Except.error e, s')
        | (Except.ok _, s') =>
          match target_run_algorithm h algoAddr srcAddr address thisrun s' with
          | (Except.error _, s'') => (Except.error Err.flashOperationFailed, s'')
          | (Except.ok _, s'') =>
              ih (count - thisrun) (address + thisrun * 4) (buffer.drop thisrun) s'')
    fuel


/-- `numicro_writeblock`: check 2-byte alignment, allocate and upload the
routine image, allocate the data buffer with `allocLoopSrc`, run the
chunked loop, then free both areas and return the loop's status.  Note
the upload-failure path returns without freeing the routine area, as in
the source. -/
def numicro_writeblock (h : Host) (buffer : List Nat) (offset count : Nat) :
    M Unit := fun s =>
  let buffer_size :=
    if 1024 < h.working_area_size / 2 then h.working_area_size / 2 else 1024
  if offset &&& 0x1 != 0 then (Except.error Err.dstBreaksAlignment, s)
  else
    match target_alloc_working_area h numicro_flash_write_code.length s with
    | (Except.error e, s1) => (Except.error e, s1)
    | (Except.ok none, s1) => (Except.error Err.resourceNotAvailable, s1)
    | (Except.ok (some algoAddr), s1) =>
      match target_write_buffer h algoAddr numicro_flash_write_code.length s1 with
      | (Except.error e, s2) => (Except.error e, s2)
      | (Except.ok _, s2) =>
        match allocLoopSrc h algoAddr buffer_size buffer_size s2 with
        | (Except.error e, s3) => (Except.error e, s3)
        | (Except.ok srcAddr, s3) =>
          match wbLoop h algoAddr srcAddr buffer_size count count
                  (s.bank.base + offset) buffer s3 with
          | (r, s4) =>
            match target_free_working_area h srcAddr s4 with
            | (_, s5) =>
              match target_free_working_area h algoAddr s5 with
              | (_, s6) => (r, s6)

/-! ### numicro_write -/

/-- The comparison `retval == ERROR_TARGET_RESOURCE_NOT_AVAILABLE`. -/
def isRNA {α : Type} : Except Err α → Bool
  | Except.error Err.resourceNotAvailable => true
  | _ => false

/-- The fallback single-word loop of `numicro_write`, over the byte
offsets `0, 4, 8, ...` below `count`: write address, write the data
word, trigger GO, poll for zero. -/
def writeWordLoop (h : Host) (base offset : Nat) (buffer : List Nat) :
    List Nat → M Unit
  | [] => M.pure ()
  | i :: rest =>
    M.bind (target_write_u32 h NUMICRO_FLASH_ISPADR (base + offset + i)) (fun _ =>
    M.bind (target_write_u32 h NUMICRO_FLASH_ISPDAT (buffer.getD (i / 4) 0)) (fun _ =>
    M.bind (target_write_u32 h NUMICRO_FLASH_ISPTRG ISPTRG_ISPGO) (fun _ =>
    M.bind (pollZero h 100) (fun _ =>
    writeWordLoop h base offset buffer rest))))

/-- `numicro_write`: requires a halted CPU; ISP init; prime the write
command; try `numicro_writeblock`; fall back to the single-word loop
exactly when the block write reported resource-unavailable (any other
block-write status falls through); finally inspect and clear the failure
flag and return OK.  `offset` and `count` are asserted in the source to
be multiples of 4; the theorems use such inputs. -/
def numicro_write (h : Host) (buffer : List Nat) (offset count : Nat) :
    M Unit := fun s =>
  if h.halted = false then (Except.error Err.targetNotHalted, s)
  else
    match (M.bind (numicro_init_isp h) (fun _ =>
           target_write_u32 h NUMICRO_FLASH_ISPCMD ISPCMD_WRITE)) s with
    | (Except.error e, s1) => (Except.error e, s1)
    | (Except.ok _, s1) =>
      match numicro_writeblock h buffer offset (count / 4) s1 with
      | (r, s2) =>
        let afterBlock :=
          if isRNA r then
            writeWordLoop h s2.bank.base offset buffer
              ((List.range ((count + 3) / 4)).map (fun j => 4 * j)) s2
          else (Except.ok (), s2)
        match afterBlock with
        | (Except.error e, s3) => (Except.error e, s3)
        | (Except.ok _, s3) => ispffClear h s3

/-! ### numicro_protect_check -/

/-- The value of a C out-parameter after a call: the call's result on
success, the previous (possibly uninitialized) content on failure. -/
def valOr (r : Except Err Nat) (g : Nat) : Nat :=
  match r with
  | Except.ok v => v
  | Except.error _ => g

/-- `numicro_protect_check`: requires a halted CPU; ISP init; reads
CONFIG0 and CONFIG1 through the command engine, discarding both call
statuses (`c0g`, `c1g` stand for the uninitialized contents of
`config[0]`, `config[1]`); paints every sector's protected flag with the
lock bit of CONFIG0 and returns OK. -/
def numicro_protect_check (h : Host) (c0g _c1g : Nat) : M Unit := fun s =>
  if h.halted = false then (Except.error Err.targetNotHalted, s)
  else
    match numicro_init_isp h s with
    | (Except.error e, s1) => (Except.error e, s1)
    | (Except.ok _, s1) =>
      match numicro_fmc_cmd h ISPCMD_READ NUMICRO_CONFIG0 0 s1 with
      | (r0, s2) =>
        match numicro_fmc_cmd h ISPCMD_READ NUMICRO_CONFIG1 0 s2 with
        | (_r1, s3) =>
          let config0 := valOr r0 c0g
          let protFlag : Int := if config0 &&& CONFIG0_LOCK_MASK == 0 then 1 else 0
          (Except.ok (), s3.paintProtected protFlag)

/-! ### Geometry resolution: part catalog and probe -/

/-- The `NUMICRO_BANKS_GENERAL` macro: four regions at the fixed bases. -/
def banksGeneral (aprom dataSize ldrom config : Nat) : List NumicroFlashBankType :=
  [⟨NUMICRO_APROM_BASE, aprom⟩, ⟨NUMICRO_DATA_BASE, dataSize⟩,
   ⟨NUMICRO_LDROM_BASE, ldrom⟩, ⟨NUMICRO_CONFIG_BASE, config⟩]

/-- One row of the part table. -/
def mkPart (name : String) (id aprom dataSize ldrom config : Nat) : NumicroCpuType :=
  ⟨name, id, 4, banksGeneral aprom dataSize ldrom config⟩

/-- The static part catalog `numicro_parts`, row for row. -/
def numicro_parts : List NumicroCpuType :=
  [
   mkPart "M052LAN" 0x00005200 (8 * 1024) (4 * 1024) (4 * 1024) 4,
   mkPart "M054LAN" 0x00005400 (16 * 1024) (4 * 1024) (4 * 1024) 4,
   mkPart "M058LAN" 0x00005800 (32 * 1024) (4 * 1024) (4 * 1024) 4,
   mkPart "M0516LAN" 0x00005A00 (64 * 1024) (4 * 1024) (4 * 1024) 4,
   mkPart "M052ZAN" 0x00005203 (8 * 1024) (4 * 1024) (4 * 1024) 4,
   mkPart "M054ZAN" 0x00005403 (16 * 1024) (4 * 1024) (4 * 1024) 4,
   mkPart "M058ZAN" 0x00005803 (32 * 1024) (4 * 1024) (4 * 1024) 4,
   mkPart "M0516ZAN" 0x00005A03 (64 * 1024) (4 * 1024) (4 * 1024) 4,
   mkPart "M052LBN" 0x10005200 (8 * 1024) (4 * 1024) (4 * 1024) 4,
   mkPart "M054LBN" 0x10005400 (16 * 1024) (4 * 1024) (4 * 1024) 4,
   mkPart "M058LBN" 0x10005800 (32 * 1024) (4 * 1024) (4 * 1024) 4,
   mkPart "M0516LBN" 0x10005A00 (64 * 1024) (4 * 1024) (4 * 1024) 4,
   mkPart "M052ZBN" 0x10005203 (8 * 1024) (4 * 1024) (4 * 1024) 4,
   mkPart "M054ZBN" 0x10005403 (16 * 1024) (4 * 1024) (4 * 1024) 4,
   mkPart "M058ZBN" 0x10005803 (32 * 1024) (4 * 1024) (4 * 1024) 4,
   mkPart "M0516ZBN" 0x10005A03 (64 * 1024) (4 * 1024) (4 * 1024) 4,
   mkPart "M0516LDN" 0x20005A00 (64 * 1024) (4 * 1024) (4 * 1024) 4,
   mkPart "M0516ZDN" 0x20005A03 (64 * 1024) (4 * 1024) (4 * 1024) 4,
   mkPart "M052LDN" 0x20005200 (8 * 1024) (4 * 1024) (4 * 1024) 4,
   mkPart "M052ZDN" 0x20005203 (8 * 1024) (4 * 1024) (4 * 1024) 4,
   mkPart "M054LDN" 0x20005400 (16 * 1024) (4 * 1024) (4 * 1024) 4,
   mkPart "M054ZDN" 0x20005403 (16 * 1024) (4 * 1024) (4 * 1024) 4,
   mkPart "M058LDN" 0x20005800 (32 * 1024) (4 * 1024) (4 * 1024) 4,
   mkPart "M058ZDN" 0x20005803 (32 * 1024) (4 * 1024) (4 * 1024) 4,
   mkPart "M0516LDE" 0x30005A00 (64 * 1024) (4 * 1024) (4 * 1024) 4,
   mkPart "M0516ZDE" 0x30005A03 (64 * 1024) (4 * 1024) (4 * 1024) 4,
   mkPart "M052LDE" 0x30005200 (8 * 1024) (4 * 1024) (4 * 1024) 4,
   mkPart "M052ZDE" 0x30005203 (8 * 1024) (4 * 1024) (4 * 1024) 4,
   mkPart "M054LDE" 0x30005400 (16 * 1024) (4 * 1024) (4 * 1024) 4,
   mkPart "M054ZDE" 0x30005403 (16 * 1024) (4 * 1024) (4 * 1024) 4,
   mkPart "M058LDE" 0x30005800 (32 * 1024) (4 * 1024) (4 * 1024) 4,
   mkPart "M058ZDE" 0x30005803 (32 * 1024) (4 * 1024) (4 * 1024) 4,
   mkPart "M0518LC2AE" 0x10051803 (32 * 1024) (4 * 1024) (4 * 1024) 8,
   mkPart "M0518LD2AE" 0x10051800 (64 * 1024) (4 * 1024) (4 * 1024) 8,
   mkPart "M0518SC2AE" 0x10051813 (32 * 1024) (4 * 1024) (4 * 1024) 8,
   mkPart "M0518SD2AE" 0x10051810 (64 * 1024) (4 * 1024) (4 * 1024) 8,
   mkPart "M0519LD3AE" 0x00051902 (64 * 1024) (4 * 1024) (8 * 1024) 8,
   mkPart "M0519LE3AE" 0x00051900 (128 * 1024) (0 * 1024) (8 * 1024) 8,
   mkPart "M0519SD3AE" 0x00051922 (64 * 1024) (4 * 1024) (8 * 1024) 8,
   mkPart "M0519SE3AE" 0x00051920 (128 * 1024) (0 * 1024) (8 * 1024) 8,
   mkPart "M0519VE3AE" 0x00051930 (128 * 1024) (0 * 1024) (8 * 1024) 8,
   mkPart "M058SFAN" 0x00005818 (32 * 1024) (4 * 1024) (4 * 1024) 8,
   mkPart "M058SLAN" 0x00005810 (32 * 1024) (4 * 1024) (4 * 1024) 8,
   mkPart "M058SSAN" 0x00005816 (32 * 1024) (4 * 1024) (4 * 1024) 8,
   mkPart "M058SZAN" 0x00005813 (32 * 1024) (4 * 1024) (4 * 1024) 8,
   mkPart "MINI51LAN" 0x00205100 (4 * 1024) (0 * 1024) (2 * 1024) 8,
   mkPart "MINI51TAN" 0x00205104 (4 * 1024) (0 * 1024) (2 * 1024) 8,
   mkPart "MINI51ZAN" 0x00205103 (4 * 1024) (0 * 1024) (2 * 1024) 8,
   mkPart "MINI52LAN" 0x00205200 (8 * 1024) (0 * 1024) (2 * 1024) 8,
   mkPart "MINI52TAN" 0x00205204 (8 * 1024) (0 * 1024) (2 * 1024) 8,
   mkPart "MINI52ZAN" 0x00205203 (8 * 1024) (0 * 1024) (2 * 1024) 8,
   mkPart "MINI54LAN" 0x00205400 (16 * 1024) (0 * 1024) (2 * 1024) 8,
   mkPart "MINI54TAN" 0x00205404 (16 * 1024) (0 * 1024) (2 * 1024) 8,
   mkPart "MINI54ZAN" 0x00205403 (16 * 1024) (0 * 1024) (2 * 1024) 8,
   mkPart "MINI51FDE" 0x20205105 (4 * 1024) (0 * 1024) (2 * 1024) 8,
   mkPart "MINI51LDE" 0x20205100 (4 * 1024) (0 * 1024) (2 * 1024) 8,
   mkPart "MINI51TDE" 0x20205104 (4 * 1024) (0 * 1024) (2 * 1024) 8,
   mkPart "MINI51ZDE" 0x20205103 (4 * 1024) (0 * 1024) (2 * 1024) 8,
   mkPart "MINI52FDE" 0x20205205 (8 * 1024) (0 * 1024) (2 * 1024) 8,
   mkPart "MINI52LDE" 0x20205200 (8 * 1024) (0 * 1024) (2 * 1024) 8,
   mkPart "MINI52TDE" 0x20205204 (8 * 1024) (0 * 1024) (2 * 1024) 8,
   mkPart "MINI52ZDE" 0x20205203 (8 * 1024) (0 * 1024) (2 * 1024) 8,
   mkPart "MINI54FDE" 0x20205405 (16 * 1024) (0 * 1024) (2 * 1024) 8,
   mkPart "MINI54LDE" 0x20205400 (16 * 1024) (0 * 1024) (2 * 1024) 8,
   mkPart "MINI54TDE" 0x20205404 (16 * 1024) (0 * 1024) (2 * 1024) 8,
   mkPart "MINI54ZDE" 0x20205403 (16 * 1024) (0 * 1024) (2 * 1024) 8,
   mkPart "MINI55LDE" 0x00505500 (35 * 512) (0 * 1024) (2 * 1024) 8,
   mkPart "MINI55ZDE" 0x00505503 (35 * 512) (0 * 1024) (2 * 1024) 8,
   mkPart "MINI58FDE" 0x00A05805 (32 * 1024) (0 * 1024) (5 * 512) 8,
   mkPart "MINI58LDE" 0x00A05800 (32 * 1024) (0 * 1024) (5 * 512) 8,
   mkPart "MINI58TDE" 0x00A05804 (32 * 1024) (0 * 1024) (5 * 512) 8,
   mkPart "MINI58ZDE" 0x00A05803 (32 * 1024) (0 * 1024) (5 * 512) 8,
   mkPart "NANO100LC2AN" 0x00110025 (32 * 1024) (0 * 1024) (4 * 1024) 8,
   mkPart "NANO100LD2AN" 0x00110019 (64 * 1024) (0 * 1024) (4 * 1024) 8,
   mkPart "NANO100LD3AN" 0x00110018 (64 * 1024) (0 * 1024) (4 * 1024) 8,
   mkPart "NANO100SC2AN" 0x00110023 (32 * 1024) (0 * 1024) (4 * 1024) 8,
   mkPart "NANO100SD2AN" 0x00110016 (64 * 1024) (0 * 1024) (4 * 1024) 8,
   mkPart "NANO100SD3AN" 0x00110015 (64 * 1024) (0 * 1024) (4 * 1024) 8,
   mkPart "NANO100VD2AN" 0x00110013 (64 * 1024) (0 * 1024) (4 * 1024) 8,
   mkPart "NANO100VD3AN" 0x00110012 (64 * 1024) (0 * 1024) (4 * 1024) 8,
   mkPart "NANO100ZC2AN" 0x00110029 (32 * 1024) (0 * 1024) (4 * 1024) 8,
   mkPart "NANO100ZD2AN" 0x00110028 (64 * 1024) (0 * 1024) (4 * 1024) 8,
   mkPart "NANO100ZD3AN" 0x00110027 (64 * 1024) (0 * 1024) (4 * 1024) 8,
   mkPart "NANO120LC2AN" 0x00112025 (32 * 1024) (0 * 1024) (4 * 1024) 8,
   mkPart "NANO120LD2AN" 0x00112019 (64 * 1024) (0 * 1024) (4 * 1024) 8,
   mkPart "NANO120LD3AN" 0x00112018 (64 * 1024) (0 * 1024) (4 * 1024) 8,
   mkPart "NANO120SC2AN" 0x00112023 (32 * 1024) (0 * 1024) (4 * 1024) 8,
   mkPart "NANO120SD2AN" 0x00112016 (64 * 1024) (0 * 1024) (4 * 1024) 8,
   mkPart "NANO120SD3AN" 0x00112015 (64 * 1024) (0 * 1024) (4 * 1024) 8,
   mkPart "NANO120VD2AN" 0x00112013 (64 * 1024) (0 * 1024) (4 * 1024) 8,
   mkPart "NANO120VD3AN" 0x00112012 (64 * 1024) (0 * 1024) (4 * 1024) 8,
   mkPart "NANO120ZC2AN" 0x00112029 (32 * 1024) (0 * 1024) (4 * 1024) 8,
   mkPart "NANO120ZD2AN" 0x00112028 (64 * 1024) (0 * 1024) (4 * 1024) 8,
   mkPart "NANO120ZD3AN" 0x00112027 (64 * 1024) (0 * 1024) (4 * 1024) 8,
   mkPart "NANO100KC2BN" 0x00110040 (64 * 1024) (0 * 1024) (4 * 1024) 8,
   mkPart "NANO100KD2BN" 0x00110039 (64 * 1024) (0 * 1024) (4 * 1024) 8,
   mkPart "NANO100KD3BN" 0x00110038 (64 * 1024) (0 * 1024) (4 * 1024) 8,
   mkPart "NANO100KE3BN" 0x00110030 (123 * 1024) (0 * 1024) (4 * 1024) 8,
   mkPart "NANO100LC2BN" 0x00110043 (32 * 1024) (0 * 1024) (4 * 1024) 8,
   mkPart "NANO100LD2BN" 0x0011003F (64 * 1024) (0 * 1024) (4 * 1024) 8,
   mkPart "NANO100LD3BN" 0x0011003E (64 * 1024) (0 * 1024) (4 * 1024) 8,
   mkPart "NANO100LE3BN" 0x00110036 (123 * 1024) (0 * 1024) (4 * 1024) 8,
   mkPart "NANO100ND2BN" 0x00110046 (64 * 1024) (0 * 1024) (4 * 1024) 8,
   mkPart "NANO100ND3BN" 0x00110045 (64 * 1024) (0 * 1024) (4 * 1024) 8,
   mkPart "NANO100NE3BN" 0x00110044 (123 * 1024) (0 * 1024) (4 * 1024) 8,
   mkPart "NANO100SC2BN" 0x00110042 (32 * 1024) (0 * 1024) (4 * 1024) 8,
   mkPart "NANO100SD2BN" 0x0011003D (64 * 1024) (0 * 1024) (4 * 1024) 8,
   mkPart "NANO100SD3BN" 0x0011003C (64 * 1024) (0 * 1024) (4 * 1024) 8,
   mkPart "NANO100SE3BN" 0x00110034 (123 * 1024) (0 * 1024) (4 * 1024) 8,
   mkPart "NANO110KC2BN" 0x00111040 (32 * 1024) (0 * 1024) (4 * 1024) 8,
   mkPart "NANO110KD2BN" 0x00111039 (64 * 1024) (0 * 1024) (4 * 1024) 8,
   mkPart "NANO110KD3BN" 0x00111038 (64 * 1024) (0 * 1024) (4 * 1024) 8,
   mkPart "NANO110KE3BN" 0x00111030 (123 * 1024) (0 * 1024) (4 * 1024) 8,
   mkPart "NANO110RC2BN" 0x00111043 (32 * 1024) (0 * 1024) (4 * 1024) 8,
   mkPart "NANO110RD2BN" 0x00111044 (64 * 1024) (0 * 1024) (4 * 1024) 8,
   mkPart "NANO110RD3BN" 0x00111045 (64 * 1024) (0 * 1024) (4 * 1024) 8,
   mkPart "NANO110SC2BN" 0x00111042 (32 * 1024) (0 * 1024) (4 * 1024) 8,
   mkPart "NANO110SD2BN" 0x0011103D (64 * 1024) (0 * 1024) (4 * 1024) 8,
   mkPart "NANO110SD3BN" 0x0011103C (64 * 1024) (0 * 1024) (4 * 1024) 8,
   mkPart "NANO110SE3BN" 0x00111034 (123 * 1024) (0 * 1024) (4 * 1024) 8,
   mkPart "NANO120KC2BN" 0x00112040 (32 * 1024) (0 * 1024) (4 * 1024) 8,
   mkPart "NANO120KD2BN" 0x00112039 (64 * 1024) (0 * 1024) (4 * 1024) 8,
   mkPart "NANO120KD3BN" 0x00112038 (64 * 1024) (0 * 1024) (4 * 1024) 8,
   mkPart "NANO120KE3BN" 0x00112030 (123 * 1024) (0 * 1024) (4 * 1024) 8,
   mkPart "NANO120LC2BN" 0x00112043 (32 * 1024) (0 * 1024) (4 * 1024) 8,
   mkPart "NANO120LD2BN" 0x0011203F (64 * 1024) (0 * 1024) (4 * 1024) 8,
   mkPart "NANO120LD3BN" 0x0011203E (64 * 1024) (0 * 1024) (4 * 1024) 8,
   mkPart "NANO120LE3BN" 0x00112036 (123 * 1024) (0 * 1024) (4 * 1024) 8,
   mkPart "NANO120SC2BN" 0x00112042 (32 * 1024) (0 * 1024) (4 * 1024) 8,
   mkPart "NANO120SD2BN" 0x0011203D (64 * 1024) (0 * 1024) (4 * 1024) 8,
   mkPart "NANO120SD3BN" 0x0011203C (64 * 1024) (0 * 1024) (4 * 1024) 8,
   mkPart "NANO120SE3BN" 0x00112034 (123 * 1024) (0 * 1024) (4 * 1024) 8,
   mkPart "NANO130KC2BN" 0x00113040 (32 * 1024) (0 * 1024) (4 * 1024) 8,
   mkPart "NANO130KD2BN" 0x00113039 (64 * 1024) (0 * 1024) (4 * 1024) 8,
   mkPart "NANO130KD3BN" 0x00113038 (64 * 1024) (0 * 1024) (4 * 1024) 8,
   mkPart "NANO130KE3BN" 0x00113030 (123 * 1024) (0 * 1024) (4 * 1024) 8,
   mkPart "NANO130SC2BN" 0x00113042 (32 * 1024) (0 * 1024) (4 * 1024) 8,
   mkPart "NANO130SD2BN" 0x0011303D (64 * 1024) (0 * 1024) (4 * 1024) 8,
   mkPart "NANO130SD3BN" 0x0011303C (64 * 1024) (0 * 1024) (4 * 1024) 8,
   mkPart "NANO130SE3BN" 0x00113034 (123 * 1024) (0 * 1024) (4 * 1024) 8,
   mkPart "NANO103SD3AE" 0x00110301 (64 * 1024) (0 * 1024) (4 * 1024) 8,
   mkPart "NANO103LD3AE" 0x00110304 (64 * 1024) (0 * 1024) (4 * 1024) 8,
   mkPart "NANO103ZD3AE" 0x00110307 (64 * 1024) (0 * 1024) (4 * 1024) 8,
   mkPart "NANO102LB1AN" 0x00110206 (16 * 1024) (0 * 1024) (4 * 1024) 8,
   mkPart "NANO102LC2AN" 0x00110208 (32 * 1024) (0 * 1024) (4 * 1024) 8,
   mkPart "NANO102SC2AN" 0x00110212 (32 * 1024) (0 * 1024) (4 * 1024) 8,
   mkPart "NANO102ZB1AN" 0x00110202 (16 * 1024) (0 * 1024) (4 * 1024) 8,
   mkPart "NANO102ZC2AN" 0x00110204 (32 * 1024) (0 * 1024) (4 * 1024) 8,
   mkPart "NANO112LB1AN" 0x00111202 (16 * 1024) (0 * 1024) (4 * 1024) 8,
   mkPart "NANO112LC2AN" 0x00111204 (32 * 1024) (0 * 1024) (4 * 1024) 8,
   mkPart "NANO112RB1AN" 0x00111210 (16 * 1024) (0 * 1024) (4 * 1024) 8,
   mkPart "NANO112RC2AN" 0x00111212 (32 * 1024) (0 * 1024) (4 * 1024) 8,
   mkPart "NANO112SB1AN" 0x00111206 (16 * 1024) (0 * 1024) (4 * 1024) 8,
   mkPart "NANO112SC2AN" 0x00111208 (32 * 1024) (0 * 1024) (4 * 1024) 8,
   mkPart "NANO112VC2AN" 0x00111216 (32 * 1024) (0 * 1024) (4 * 1024) 8,
   mkPart "NUC029LAN" 0x00295A00 (64 * 1024) (4 * 1024) (4 * 1024) 4,
   mkPart "NUC029TAN" 0x00295804 (32 * 1024) (4 * 1024) (4 * 1024) 4,
   mkPart "NUC029FAE" 0x00295415 (16 * 1024) (0 * 1024) (2 * 1024) 8,
   mkPart "NUC100LD3AN" 0x00010003 (64 * 1024) (4 * 1024) (4 * 1024) 8,
   mkPart "NUC100LE3AN" 0x00010000 (128 * 1024) (0 * 1024) (4 * 1024) 8,
   mkPart "NUC100RD3AN" 0x00010012 (64 * 1024) (4 * 1024) (4 * 1024) 8,
   mkPart "NUC100RE3AN" 0x00010009 (128 * 1024) (0 * 1024) (4 * 1024) 8,
   mkPart "NUC100VD2AN" 0x00010022 (64 * 1024) (4 * 1024) (4 * 1024) 8,
   mkPart "NUC100VD3AN" 0x00010021 (64 * 1024) (4 * 1024) (4 * 1024) 8,
   mkPart "NUC100VE3AN" 0x00100018 (128 * 1024) (0 * 1024) (4 * 1024) 8,
   mkPart "NUC120LD3AN" 0x00012003 (64 * 1024) (4 * 1024) (4 * 1024) 8,
   mkPart "NUC120LE3AN" 0x00120000 (128 * 1024) (0 * 1024) (4 * 1024) 8,
   mkPart "NUC120RD3AN" 0x00012012 (64 * 1024) (4 * 1024) (4 * 1024) 8,
   mkPart "NUC120RE3AN" 0x00012009 (128 * 1024) (0 * 1024) (4 * 1024) 8,
   mkPart "NUC120VD2AN" 0x00012022 (64 * 1024) (4 * 1024) (4 * 1024) 8,
   mkPart "NUC120VD3AN" 0x00012021 (64 * 1024) (4 * 1024) (4 * 1024) 8,
   mkPart "NUC120VE3AN" 0x00012018 (128 * 1024) (0 * 1024) (4 * 1024) 8,
   mkPart "NUC100LC1BN" 0x10010008 (32 * 1024) (4 * 1024) (4 * 1024) 8,
   mkPart "NUC100LD1BN" 0x10010005 (64 * 1024) (4 * 1024) (4 * 1024) 8,
   mkPart "NUC100LD2BN" 0x10010004 (64 * 1024) (4 * 1024) (4 * 1024) 8,
   mkPart "NUC100RC1BN" 0x10010017 (32 * 1024) (4 * 1024) (4 * 1024) 8,
   mkPart "NUC100RD1BN" 0x10010014 (64 * 1024) (4 * 1024) (4 * 1024) 8,
   mkPart "NUC100RD2BN" 0x10010013 (64 * 1024) (4 * 1024) (4 * 1024) 8,
   mkPart "NUC120LC1BN" 0x10012008 (32 * 1024) (4 * 1024) (4 * 1024) 8,
   mkPart "NUC120LD1BN" 0x10012005 (64 * 1024) (4 * 1024) (4 * 1024) 8,
   mkPart "NUC120LD2BN" 0x10012004 (64 * 1024) (4 * 1024) (4 * 1024) 8,
   mkPart "NUC120RC1BN" 0x10012017 (32 * 1024) (4 * 1024) (4 * 1024) 8,
   mkPart "NUC120RD1BN" 0x10012014 (64 * 1024) (4 * 1024) (4 * 1024) 8,
   mkPart "NUC120RD2BN" 0x10012013 (64 * 1024) (4 * 1024) (4 * 1024) 8,
   mkPart "NUC130LC1CN" 0x20013008 (32 * 1024) (4 * 1024) (4 * 1024) 8,
   mkPart "NUC130LD2CN" 0x20013004 (64 * 1024) (4 * 1024) (4 * 1024) 8,
   mkPart "NUC130LE3CN" 0x20013000 (128 * 1024) (0 * 1024) (4 * 1024) 8,
   mkPart "NUC130RC1CN" 0x20013017 (32 * 1024) (4 * 1024) (4 * 1024) 8,
   mkPart "NUC130RD2CN" 0x20013013 (64 * 1024) (4 * 1024) (4 * 1024) 8,
   mkPart "NUC130RE3CN" 0x20013009 (128 * 1024) (0 * 1024) (4 * 1024) 8,
   mkPart "NUC130VE3CN" 0x20013018 (128 * 1024) (0 * 1024) (4 * 1024) 8,
   mkPart "NUC140LC1CN" 0x20014008 (32 * 1024) (4 * 1024) (4 * 1024) 8,
   mkPart "NUC140LD2CN" 0x20014004 (64 * 1024) (4 * 1024) (4 * 1024) 8,
   mkPart "NUC140LE3CN" 0x20014000 (128 * 1024) (0 * 1024) (4 * 1024) 8,
   mkPart "NUC140RC1CN" 0x20014017 (32 * 1024) (4 * 1024) (4 * 1024) 8,
   mkPart "NUC140RD2CN" 0x20014013 (64 * 1024) (4 * 1024) (4 * 1024) 8,
   mkPart "NUC140RE3CN" 0x20014009 (128 * 1024) (0 * 1024) (4 * 1024) 8,
   mkPart "NUC140VE3CN" 0x20014018 (128 * 1024) (0 * 1024) (4 * 1024) 8,
   mkPart "NUC100LC1DN" 0x30010008 (32 * 1024) (4 * 1024) (4 * 1024) 8,
   mkPart "NUC100LD1DN" 0x30010005 (64 * 1024) (4 * 1024) (4 * 1024) 8,
   mkPart "NUC100LD2DN" 0x30010004 (64 * 1024) (4 * 1024) (4 * 1024) 8,
   mkPart "NUC100LD3DN" 0x30010003 (64 * 1024) (4 * 1024) (4 * 1024) 8,
   mkPart "NUC100LE3DN" 0x30010000 (128 * 1024) (0 * 1024) (4 * 1024) 8,
   mkPart "NUC100RC1DN" 0x30010017 (32 * 1024) (4 * 1024) (4 * 1024) 8,
   mkPart "NUC100RD1DN" 0x30010014 (64 * 1024) (4 * 1024) (4 * 1024) 8,
   mkPart "NUC100RD2DN" 0x30010013 (64 * 1024) (4 * 1024) (4 * 1024) 8,
   mkPart "NUC100RD3DN" 0x30010012 (64 * 1024) (4 * 1024) (4 * 1024) 8,
   mkPart "NUC100RE3DN" 0x30010009 (128 * 1024) (0 * 1024) (4 * 1024) 8,
   mkPart "NUC100VD2DN" 0x30010022 (64 * 1024) (4 * 1024) (4 * 1024) 8,
   mkPart "NUC100VD3DN" 0x30010021 (64 * 1024) (4 * 1024) (4 * 1024) 8,
   mkPart "NUC100VE3DN" 0x30010018 (128 * 1024) (0 * 1024) (4 * 1024) 8,
   mkPart "NUC120LC1DN" 0x30012008 (32 * 1024) (4 * 1024) (4 * 1024) 8,
   mkPart "NUC120LD1DN" 0x30012005 (64 * 1024) (4 * 1024) (4 * 1024) 8,
   mkPart "NUC120LD2DN" 0x30012004 (64 * 1024) (4 * 1024) (4 * 1024) 8,
   mkPart "NUC120LD3DN" 0x30012003 (64 * 1024) (4 * 1024) (4 * 1024) 8,
   mkPart "NUC120LE3DN" 0x30012000 (128 * 1024) (0 * 1024) (4 * 1024) 8,
   mkPart "NUC120RC1DN" 0x30012035 (32 * 1024) (4 * 1024) (4 * 1024) 8,
   mkPart "NUC120RD1DN" 0x30012032 (64 * 1024) (4 * 1024) (4 * 1024) 8,
   mkPart "NUC120RD2DN" 0x30012031 (64 * 1024) (4 * 1024) (4 * 1024) 8,
   mkPart "NUC120RD3DN" 0x30012030 (64 * 1024) (4 * 1024) (4 * 1024) 8,
   mkPart "NUC120RE3DN" 0x30012027 (128 * 1024) (0 * 1024) (4 * 1024) 8,
   mkPart "NUC120VD2DN" 0x30012022 (64 * 1024) (4 * 1024) (4 * 1024) 8,
   mkPart "NUC120VD3DN" 0x30012021 (64 * 1024) (4 * 1024) (4 * 1024) 8,
   mkPart "NUC120VE3DN" 0x30012018 (128 * 1024) (0 * 1024) (4 * 1024) 8,
   mkPart "NUC121SC2AE" 0x00012105 (32 * 1024) (0 * 1024) (9 * 512) 8,
   mkPart "NUC121LC2AE" 0x00012125 (32 * 1024) (0 * 1024) (9 * 512) 8,
   mkPart "NUC121ZC2AE" 0x00012145 (32 * 1024) (0 * 1024) (9 * 512) 8,
   mkPart "NUC125SC2AE" 0x00012505 (32 * 1024) (0 * 1024) (9 * 512) 8,
   mkPart "NUC125LC2AE" 0x00012525 (32 * 1024) (0 * 1024) (9 * 512) 8,
   mkPart "NUC125ZC2AE" 0x00012545 (32 * 1024) (0 * 1024) (9 * 512) 8,
   mkPart "NUC122LC1AN" 0x00012208 (32 * 1024) (4 * 1024) (4 * 1024) 8,
   mkPart "NUC122LD2AN" 0x00012204 (64 * 1024) (4 * 1024) (4 * 1024) 8,
   mkPart "NUC122SC1AN" 0x00012226 (32 * 1024) (4 * 1024) (4 * 1024) 8,
   mkPart "NUC122SD2AN" 0x00012222 (64 * 1024) (4 * 1024) (4 * 1024) 8,
   mkPart "NUC122ZC1AN" 0x00012235 (32 * 1024) (4 * 1024) (4 * 1024) 8,
   mkPart "NUC122ZD2AN" 0x00012231 (64 * 1024) (4 * 1024) (4 * 1024) 8,
   mkPart "NUC123LC2AN1" 0x00012325 (32 * 1024) (4 * 1024) (4 * 1024) 8,
   mkPart "NUC123LD4AN0" 0x00012335 (64 * 1024) (4 * 1024) (4 * 1024) 8,
   mkPart "NUC123SC2AN1" 0x00012305 (32 * 1024) (4 * 1024) (4 * 1024) 8,
   mkPart "NUC123SD4AN0" 0x00012315 (64 * 1024) (4 * 1024) (4 * 1024) 8,
   mkPart "NUC123ZC2AN1" 0x00012345 (32 * 1024) (4 * 1024) (4 * 1024) 8,
   mkPart "NUC123ZD4AN0" 0x00012355 (64 * 1024) (4 * 1024) (4 * 1024) 8,
   mkPart "NUC123LC2AE1" 0x10012325 (32 * 1024) (4 * 1024) (4 * 1024) 8,
   mkPart "NUC123LD4AE0" 0x10012335 (64 * 1024) (4 * 1024) (4 * 1024) 8,
   mkPart "NUC123SC2AE1" 0x10012305 (32 * 1024) (4 * 1024) (4 * 1024) 8,
   mkPart "NUC123SD4AE0" 0x10012315 (64 * 1024) (4 * 1024) (4 * 1024) 8,
   mkPart "NUC123ZC2AE1" 0x10012345 (32 * 1024) (4 * 1024) (4 * 1024) 8,
   mkPart "NUC123ZD4AE0" 0x10012355 (64 * 1024) (4 * 1024) (4 * 1024) 8,
   mkPart "NUC131LC2AE" 0x10013103 (32 * 1024) (4 * 1024) (4 * 1024) 8,
   mkPart "NUC131LD2AE" 0x10013100 (64 * 1024) (4 * 1024) (4 * 1024) 8,
   mkPart "NUC131SC2AE" 0x10013113 (32 * 1024) (4 * 1024) (4 * 1024) 8,
   mkPart "NUC131SD2AE" 0x10013110 (64 * 1024) (4 * 1024) (4 * 1024) 8,
   mkPart "NUC200LC2AN" 0x00020007 (32 * 1024) (4 * 1024) (4 * 1024) 8,
   mkPart "NUC200LD2AN" 0x00020004 (64 * 1024) (4 * 1024) (4 * 1024) 8,
   mkPart "NUC200LE3AN" 0x00020000 (128 * 1024) (0 * 1024) (4 * 1024) 8,
   mkPart "NUC200SC2AN" 0x00020034 (32 * 1024) (4 * 1024) (4 * 1024) 8,
   mkPart "NUC200SD2AN" 0x00020031 (64 * 1024) (4 * 1024) (4 * 1024) 8,
   mkPart "NUC200SE3AN" 0x00020027 (128 * 1024) (0 * 1024) (4 * 1024) 8,
   mkPart "NUC200VE3AN" 0x00020018 (128 * 1024) (0 * 1024) (4 * 1024) 8,
   mkPart "NUC220LC2AN" 0x00022007 (32 * 1024) (4 * 1024) (4 * 1024) 8,
   mkPart "NUC220LD2AN" 0x00022004 (64 * 1024) (4 * 1024) (4 * 1024) 8,
   mkPart "NUC220LE3AN" 0x00022000 (128 * 1024) (0 * 1024) (4 * 1024) 8,
   mkPart "NUC220SC2AN" 0x00022034 (32 * 1024) (4 * 1024) (4 * 1024) 8,
   mkPart "NUC220SD2AN" 0x00022031 (64 * 1024) (4 * 1024) (4 * 1024) 8,
   mkPart "NUC220SE3AN" 0x00022027 (128 * 1024) (0 * 1024) (4 * 1024) 8,
   mkPart "NUC220VE3AN" 0x00022018 (128 * 1024) (0 * 1024) (4 * 1024) 8,
   mkPart "NUC230LC2AE" 0x10023007 (32 * 1024) (4 * 1024) (8 * 1024) 8,
   mkPart "NUC230LD2AE" 0x10023004 (64 * 1024) (4 * 1024) (8 * 1024) 8,
   mkPart "NUC230LE3AE" 0x10023000 (128 * 1024) (0 * 1024) (8 * 1024) 8,
   mkPart "NUC230SC2AE" 0x10023034 (32 * 1024) (4 * 1024) (8 * 1024) 8,
   mkPart "NUC230SD2AE" 0x10023031 (64 * 1024) (4 * 1024) (8 * 1024) 8,
   mkPart "NUC230SE3AE" 0x10023027 (128 * 1024) (0 * 1024) (8 * 1024) 8,
   mkPart "NUC230VE3AE" 0x10023018 (128 * 1024) (0 * 1024) (8 * 1024) 8,
   mkPart "NUC240LC2AE" 0x10024007 (32 * 1024) (4 * 1024) (8 * 1024) 8,
   mkPart "NUC240LD2AE" 0x10024004 (64 * 1024) (4 * 1024) (8 * 1024) 8,
   mkPart "NUC240LE3AE" 0x10024000 (128 * 1024) (0 * 1024) (8 * 1024) 8,
   mkPart "NUC240SC2AE" 0x10024034 (32 * 1024) (4 * 1024) (8 * 1024) 8,
   mkPart "NUC240SD2AE" 0x10024031 (64 * 1024) (4 * 1024) (8 * 1024) 8,
   mkPart "NUC240SE3AE" 0x10024027 (128 * 1024) (0 * 1024) (8 * 1024) 8,
   mkPart "NUC240VE3AE" 0x10024018 (128 * 1024) (0 * 1024) (8 * 1024) 8,
   mkPart "UNKNOWN" 0x00000000 (128 * 1024) (0 * 1024) (16 * 1024) 8
  ]

/-- `numicro_get_cpu_type`: read the part id from the system base
register (a failed read surfaces as operation-failed), then scan the
catalog in order for the first exact id match; no match is ERROR_FAIL. -/
def numicro_get_cpu_type (h : Host) : M NumicroCpuType := fun s =>
  match target_read_u32 h NUMICRO_SYS_BASE s with
  | (Except.error _, s1) => (Except.error Err.flashOperationFailed, s1)
  | (Except.ok part_id, s1) =>
    match numicro_parts.find? (fun c => c.partid == part_id) with
    | some c => (Except.ok c, s1)
    | none => (Except.error Err.fail, s1)

/-- `numicro_get_flash_size`: the size of the first of the part's first
`n_banks` regions whose base equals the bank's base. -/
def numicro_get_flash_size (bank : Bank) (cpu : NumicroCpuType) : Option Nat :=
  ((cpu.bank.take cpu.n_banks).find? (fun b => b.base == bank.base)).map
    (fun b => b.size)

/-- The sector array `numicro_probe` builds: sequential offsets, fixed
512-byte size, erased-state unknown (-1), unprotected. -/
def initSectors (num_pages : Nat) : List Sector :=
  (List.range num_pages).map (fun i => ⟨NUMICRO_PAGESIZE * i, NUMICRO_PAGESIZE, -1, 0⟩)

/-- `numicro_probe`: resolve the part, locate the region matching the
bank base, fill in size, sector count (size / 512) and the sector array,
and mark the bank probed.  Either lookup failure is operation-failed and
leaves the bank untouched. -/
def numicro_probe (h : Host) : M Unit := fun s =>
  match numicro_get_cpu_type h s with
  | (Except.error _, s1) => (Except.error Err.flashOperationFailed, s1)
  | (Except.ok cpu, s1) =>
    match numicro_get_flash_size s1.bank cpu with
    | none => (Except.error Err.flashOperationFailed, s1)
    | some flash_size =>
      let num_pages := flash_size / NUMICRO_PAGESIZE
      (Except.ok (),
       { s1 with bank :=
          { s1.bank with num_sectors := num_pages, sectors := initSectors num_pages,
                         size := flash_size, probed := true, cpu := some cpu } })

/-- `numicro_auto_probe`: a probe memoized on the probed flag. -/
def numicro_auto_probe (h : Host) : M Unit := fun s =>
  if s.bank.probed then (Except.ok (), s) else numicro_probe h s

/-! ### The ISP command handlers -/

/-- `numicro_handle_read_isp_command` after argument parsing: init then a
READ command. -/
def numicro_handle_read_isp_command (h : Host) (address : Nat) : M Nat :=
  M.bind (numicro_init_isp h) (fun _ =>
  numicro_fmc_cmd h ISPCMD_READ address 0)

/-- `numicro_handle_write_isp_command` after argument parsing: init then
a WRITE command. -/
def numicro_handle_write_isp_command (h : Host) (address ispdat : Nat) : M Nat :=
  M.bind (numicro_init_isp h) (fun _ =>
  numicro_fmc_cmd h ISPCMD_WRITE address ispdat)

/-- `numicro_handle_chip_erase_command`: init then the undocumented
CHIPERASE command. -/
def numicro_handle_chip_erase_command (h : Host) : M Nat :=
  M.bind (numicro_init_isp h) (fun _ =>
  numicro_fmc_cmd h ISPCMD_CHIPERASE 0 0)

/-- Record a failed allocation for each size in the list, in order. -/
def applyFails (s : St) (sizes : List Nat) : St := sizes.foldl St.noteAllocFail s

/-- The sizes `numicro_writeblock` requests for its data buffer when
every allocation fails: the starting size, then a quarter of the
previous one for as long as that stays above 256 bytes.  Like the
allocation loop itself, it is driven by a fuel argument that the callers
tie to the starting size, which bounds the iteration count because the
size shrinks fourfold per step. -/
def attemptSizes (fuel : Nat) : Nat → List Nat :=
  @Nat.rec (fun _ => Nat → List Nat)
    (fun _ => [])
    (fun _ ih bs => bs :: (if 256 < bs / 4 then ih (bs / 4) else []))
    fuel

/-! ### Trace shapes of good-host runs -/

/-- The three register writes of a `numicro_init_isp` run whose unlock
check found the registers already unprotected: the AHBCLK and ISPCON
read-modify-writes and the undocumented-register write, the read-back
values taken from the host at accesses `i0 + 2` and `i0 + 4`. -/
def initTrace (h : Host) (i0 : Nat) : List Ev :=
  [Ev.writeReg NUMICRO_SYSCLK_AHBCLK
     (h.readVal NUMICRO_SYSCLK_AHBCLK (i0 + 2) |||
       (AHBCLK_ISP_EN ||| AHBCLK_SRAM_EN ||| AHBCLK_TICK_EN)),
   Ev.writeReg NUMICRO_FLASH_ISPCON
     (h.readVal NUMICRO_FLASH_ISPCON (i0 + 4) |||
       (ISPCON_ISPFF ||| ISPCON_LDUEN ||| ISPCON_APUEN ||| ISPCON_CFGUEN |||
        ISPCON_ISPEN)),
   Ev.writeReg NUMICRO_FLASH_CHEAT 1]

/-- The register writes the erase loop performs for the given sector
indices when every poll completes at once and every ISPCON read-back
yields `v`: per sector the address write, the GO trigger, and — exactly
when `v` has ISPFF set — the write-back that clears the flag. -/
def eraseTrace (base : Nat) (secs : List Sector) (v : Nat) : List Nat → List Ev
  | [] => []
  | i :: rest =>
    [Ev.writeReg NUMICRO_FLASH_ISPADR (base + (secs.getD i ⟨0, 0, 0, 0⟩).offset),
     Ev.writeReg NUMICRO_FLASH_ISPTRG ISPTRG_ISPGO] ++
    (if v &&& ISPCON_ISPFF != 0 then
       [Ev.writeReg NUMICRO_FLASH_ISPCON (v ||| ISPCON_ISPFF)]
     else []) ++
    eraseTrace base secs v rest

/-! ### Concrete hosts and banks used by the witnesses and counterexamples -/

/-- A probed bank with two 512-byte sectors of unknown erase state. -/
def bank2 : Bank := ⟨0, 1024, 2, [⟨0, 512, -1, 0⟩, ⟨512, 512, -1, 0⟩], true, none⟩

/-- A quiet, fully functional device: every call succeeds, WRPROT reads
unprotected, every other register reads 0 and every GO poll completes at
once. -/
def hostOk : Host :=
  ⟨true, 0, fun _ => none,
   fun addr _ => if addr == NUMICRO_SYS_WRPROT then 1 else 0,
   fun i => some (0x20000000 + 1024 * i), fun _ => none, fun _ => none⟩

/-- Like `hostOk` but ISPCON reads 0x40 (ISPFF set) once the erase loop
is reached (memory access 8 onwards). -/
def hostC2 : Host :=
  ⟨true, 0, fun _ => none,
   fun addr i => if addr == NUMICRO_SYS_WRPROT then 1
                 else if addr == NUMICRO_FLASH_ISPCON && decide (8 ≤ i) then 64 else 0,
   fun i => some (0x20000000 + 1024 * i), fun _ => none, fun _ => none⟩

/-- Like `hostOk` but every `target_run_algorithm` call fails. -/
def hostC1 : Host :=
  ⟨true, 0, fun _ => none,
   fun addr _ => if addr == NUMICRO_SYS_WRPROT then 1 else 0,
   fun i => some (0x20000000 + 1024 * i), fun _ => none, fun _ => some Err.fail⟩

/-- A host whose `target_write_buffer` always fails while allocation
succeeds. -/
def hostC3 : Host :=
  ⟨true, 0, fun _ => none, fun _ _ => 0,
   fun i => some (0x20000000 + 1024 * i), fun _ => some Err.fail, fun _ => none⟩

/-- An unprobed bank at base 0. -/
def bankU : Bank := ⟨0, 0, 0, [], false, none⟩

/-- A host whose system-base identifier register reads part id
0x00005A00 (the catalog's M0516LAN). -/
def hostC8 : Host :=
  ⟨true, 0, fun _ => none,
   fun addr _ => if addr == NUMICRO_SYS_BASE then 0x00005A00 else 0,
   fun _ => none, fun _ => none, fun _ => none⟩

/-- A halted host with 16 KiB of working-area memory whose first
allocation (the routine image) succeeds and all later ones fail. -/
def hostC9 : Host :=
  ⟨true, 16384, fun _ => none,
   fun addr _ => if addr == NUMICRO_SYS_WRPROT then 1 else 0,
   fun i => if i == 0 then some 500 else none,
   fun _ => none, fun _ => none⟩

/-- A host that is not halted. -/
def hostNotHalted : Host :=
  ⟨false, 0, fun _ => none, fun _ _ => 0, fun _ => none, fun _ => none, fun _ => none⟩

/-- A fully functional device whose ISPCON always reads 0x40: the
failure flag appears set after every operation. -/
def hostFF : Host :=
  ⟨true, 0, fun _ => none,
   fun addr _ => if addr == NUMICRO_SYS_WRPROT then 1
                 else if addr == NUMICRO_FLASH_ISPCON then 64 else 0,
   fun i => some (0x20000000 + 1024 * i), fun _ => none, fun _ => none⟩

/-- A halted host whose memory accesses all succeed but whose trigger
register always reads busy: every command-engine call times out. -/
def hostC10 : Host :=
  ⟨true, 0, fun _ => none,
   fun addr _ => if addr == NUMICRO_SYS_WRPROT then 1
                 else if addr == NUMICRO_FLASH_ISPTRG then 1 else 0,
   fun _ => none, fun _ => none, fun _ => none⟩

/-- A host whose trigger register stays busy for the first two polls of
a command issued from the initial state, and whose data register reads
0x12345678. -/
def hostC7 : Host :=
  ⟨true, 0, fun _ => none,
   fun addr i => if addr == NUMICRO_FLASH_ISPTRG && decide (i < 6) then 1
                 else if addr == NUMICRO_FLASH_ISPDAT then 0x12345678 else 0,
   fun _ => none, fun _ => none, fun _ => none⟩

/-! ### Projection equations for the state transformers -/

@[simp]
theorem St.tick_idx (s : St) :
    (s.tick).idx = s.idx + 1 := rfl

@[simp]
theorem St.tick_allocIdx (s : St) :
    (s.tick).allocIdx = s.allocIdx := rfl

@[simp]
theorem St.tick_wbufIdx (s : St) :
    (s.tick).wbufIdx = s.wbufIdx := rfl

@[simp]
theorem St.tick_runIdx (s : St) :
    (s.tick).runIdx = s.runIdx := rfl

@[simp]
theorem St.tick_trace (s : St) :
    (s.tick).trace = s.trace := rfl

@[simp]
theorem St.tick_liveAreas (s : St) :
    (s.tick).liveAreas = s.liveAreas := rfl

@[simp]
theorem St.tick_allocReqs (s : St) :
    (s.tick).allocReqs = s.allocReqs := rfl

@[simp]
theorem St.tick_bank (s : St) :
    (s.tick).bank = s.bank := rfl

@[simp]
theorem St.addEv_idx (s : St) (e : Ev) :
    (s.addEv e).idx = s.idx := rfl

@[simp]
theorem St.addEv_allocIdx (s : St) (e : Ev) :
    (s.addEv e).allocIdx = s.allocIdx := rfl

@[simp]
theorem St.addEv_wbufIdx (s : St) (e : Ev) :
    (s.addEv e).wbufIdx = s.wbufIdx := rfl

@[simp]
theorem St.addEv_runIdx (s : St) (e : Ev) :
    (s.addEv e).runIdx = s.runIdx := rfl

@[simp]
theorem St.addEv_trace (s : St) (e : Ev) :
    (s.addEv e).trace = s.trace ++ [e] := rfl

@[simp]
theorem St.addEv_liveAreas (s : St) (e : Ev) :
    (s.addEv e).liveAreas = s.liveAreas := rfl

@[simp]
theorem St.addEv_allocReqs (s : St) (e : Ev) :
    (s.addEv e).allocReqs = s.allocReqs := rfl

@[simp]
theorem St.addEv_bank (s : St) (e : Ev) :
    (s.addEv e).bank = s.bank := rfl

@[simp]
theorem St.wtick_idx (s : St) :
    (s.wtick).idx = s.idx := rfl

@[simp]
theorem St.wtick_allocIdx (s : St) :
    (s.wtick).allocIdx = s.allocIdx := rfl

@[simp]
theorem St.wtick_wbufIdx (s : St) :
    (s.wtick).wbufIdx = s.wbufIdx + 1 := rfl

@[simp]
theorem St.wtick_runIdx (s : St) :
    (s.wtick).runIdx = s.runIdx := rfl

@[simp]
theorem St.wtick_trace (s : St) :
    (s.wtick).trace = s.trace := rfl

@[simp]
theorem St.wtick_liveAreas (s : St) :
    (s.wtick).liveAreas = s.liveAreas := rfl

@[simp]
theorem St.wtick_allocReqs (s : St) :
    (s.wtick).allocReqs = s.allocReqs := rfl

@[simp]
theorem St.wtick_bank (s : St) :
    (s.wtick).bank = s.bank := rfl

@[simp]
theorem St.rtick_idx (s : St) :
    (s.rtick).idx = s.idx := rfl

@[simp]
theorem St.rtick_allocIdx (s : St) :
    (s.rtick).allocIdx = s.allocIdx := rfl

@[simp]
theorem St.rtick_wbufIdx (s : St) :
    (s.rtick).wbufIdx = s.wbufIdx := rfl

@[simp]
theorem St.rtick_runIdx (s : St) :
    (s.rtick).runIdx = s.runIdx + 1 := rfl

@[simp]
theorem St.rtick_trace (s : St) :
    (s.rtick).trace = s.trace := rfl

@[simp]
theorem St.rtick_liveAreas (s : St) :
    (s.rtick).liveAreas = s.liveAreas := rfl

@[simp]
theorem St.rtick_allocReqs (s : St) :
    (s.rtick).allocReqs = s.allocReqs := rfl

@[simp]
theorem St.rtick_bank (s : St) :
    (s.rtick).bank = s.bank := rfl

@[simp]
theorem St.noteAllocOk_idx (s : St) (size addr : Nat) :
    (s.noteAllocOk size addr).idx = s.idx := rfl

@[simp]
theorem St.noteAllocOk_allocIdx (s : St) (size addr : Nat) :
    (s.noteAllocOk size addr).allocIdx = s.allocIdx + 1 := rfl

@[simp]
theorem St.noteAllocOk_wbufIdx (s : St) (size addr : Nat) :
    (s.noteAllocOk size addr).wbufIdx = s.wbufIdx := rfl

@[simp]
theorem St.noteAllocOk_runIdx (s : St) (size addr : Nat) :
    (s.noteAllocOk size addr).runIdx = s.runIdx := rfl

@[simp]
theorem St.noteAllocOk_trace (s : St) (size addr : Nat) :
    (s.noteAllocOk size addr).trace = s.trace := rfl

@[simp]
theorem St.noteAllocOk_liveAreas (s : St) (size addr : Nat) :
    (s.noteAllocOk size addr).liveAreas = s.liveAreas ++ [addr] := rfl

@[simp]
theorem St.noteAllocOk_allocReqs (s : St) (size addr : Nat) :
    (s.noteAllocOk size addr).allocReqs = s.allocReqs ++ [size] := rfl

@[simp]
theorem St.noteAllocOk_bank (s : St) (size addr : Nat) :
    (s.noteAllocOk size addr).bank = s.bank := rfl

@[simp]
theorem St.noteAllocFail_idx (s : St) (size : Nat) :
    (s.noteAllocFail size).idx = s.idx := rfl

@[simp]
theorem St.noteAllocFail_allocIdx (s : St) (size : Nat) :
    (s.noteAllocFail size).allocIdx = s.allocIdx + 1 := rfl

@[simp]
theorem St.noteAllocFail_wbufIdx (s : St) (size : Nat) :
    (s.noteAllocFail size).wbufIdx = s.wbufIdx := rfl

@[simp]
theorem St.noteAllocFail_runIdx (s : St) (size : Nat) :
    (s.noteAllocFail size).runIdx = s.runIdx := rfl

@[simp]
theorem St.noteAllocFail_trace (s : St) (size : Nat) :
    (s.noteAllocFail size).trace = s.trace := rfl

@[simp]
theorem St.noteAllocFail_liveAreas (s : St) (size : Nat) :
    (s.noteAllocFail size).liveAreas = s.liveAreas := rfl

@[simp]
theorem St.noteAllocFail_allocReqs (s : St) (size : Nat) :
    (s.noteAllocFail size).allocReqs = s.allocReqs ++ [size] := rfl

@[simp]
theorem St.noteAllocFail_bank (s : St) (size : Nat) :
    (s.noteAllocFail size).bank = s.bank := rfl

@[simp]
theorem St.freeArea_idx (s : St) (addr : Nat) :
    (s.freeArea addr).idx = s.idx := rfl

@[simp]
theorem St.freeArea_allocIdx (s : St) (addr : Nat) :
    (s.freeArea addr).allocIdx = s.allocIdx := rfl

@[simp]
theorem St.freeArea_wbufIdx (s : St) (addr : Nat) :
    (s.freeArea addr).wbufIdx = s.wbufIdx := rfl

@[simp]
theorem St.freeArea_runIdx (s : St) (addr : Nat) :
    (s.freeArea addr).runIdx = s.runIdx := rfl

@[simp]
theorem St.freeArea_trace (s : St) (addr : Nat) :
    (s.freeArea addr).trace = s.trace := rfl

@[simp]
theorem St.freeArea_liveAreas (s : St) (addr : Nat) :
    (s.freeArea addr).liveAreas = s.liveAreas.erase addr := rfl

@[simp]
theorem St.freeArea_allocReqs (s : St) (addr : Nat) :
    (s.freeArea addr).allocReqs = s.allocReqs := rfl

@[simp]
theorem St.freeArea_bank (s : St) (addr : Nat) :
    (s.freeArea addr).bank = s.bank := rfl

@[simp]
theorem St.paintProtected_idx (s : St) (flag : Int) :
    (s.paintProtected flag).idx = s.idx := rfl

@[simp]
theorem St.paintProtected_allocIdx (s : St) (flag : Int) :
    (s.paintProtected flag).allocIdx = s.allocIdx := rfl

@[simp]
theorem St.paintProtected_wbufIdx (s : St) (flag : Int) :
    (s.paintProtected flag).wbufIdx = s.wbufIdx := rfl

@[simp]
theorem St.paintProtected_runIdx (s : St) (flag : Int) :
    (s.paintProtected flag).runIdx = s.runIdx := rfl

@[simp]
theorem St.paintProtected_trace (s : St) (flag : Int) :
    (s.paintProtected flag).trace = s.trace := rfl

@[simp]
theorem St.paintProtected_liveAreas (s : St) (flag : Int) :
    (s.paintProtected flag).liveAreas = s.liveAreas := rfl

@[simp]
theorem St.paintProtected_allocReqs (s : St) (flag : Int) :
    (s.paintProtected flag).allocReqs = s.allocReqs := rfl

@[simp]
theorem St.paintProtected_bank (s : St) (flag : Int) :
    (s.paintProtected flag).bank = { s.bank with sectors := s.bank.sectors.map (fun sec => { sec with is_protected := flag }) } := rfl
/-! ### Unfolding equations for the fuel-indexed loops -/

/-- `fmcPoll` with no timeout budget left: one final read, then fail if
still busy. -/
theorem fmcPoll_zero (h : Host) :
    fmcPoll h 0 =
      M.bind (target_read_u32 h NUMICRO_FLASH_ISPTRG) (fun status =>
        if status &&& ISPTRG_ISPGO == 0 then M.pure status
        else M.err Err.fail) := rfl

/-- `fmcPoll` with budget left: read, stop when GO is clear, otherwise
sleep 1 ms and retry with one unit less. -/
theorem fmcPoll_succ (h : Host) (fuel : Nat) :
    fmcPoll h (fuel + 1) =
      M.bind (target_read_u32 h NUMICRO_FLASH_ISPTRG) (fun status =>
        if status &&& ISPTRG_ISPGO == 0 then M.pure status
        else M.bind (busy_sleep 1) (fun _ => fmcPoll h fuel)) := rfl

/-- `pollZero` with no timeout budget left. -/
theorem pollZero_zero (h : Host) :
    pollZero h 0 =
      M.bind (target_read_u32 h NUMICRO_FLASH_ISPTRG) (fun status =>
        if status == 0 then M.pure status
        else M.err Err.fail) := rfl

/-- `pollZero` with budget left. -/
theorem pollZero_succ (h : Host) (fuel : Nat) :
    pollZero h (fuel + 1) =
      M.bind (target_read_u32 h NUMICRO_FLASH_ISPTRG) (fun status =>
        if status == 0 then M.pure status
        else M.bind (busy_sleep 1) (fun _ => pollZero h fuel)) := rfl

/-- `allocLoopSrc` with budget left: attempt the allocation, succeed
with the area's address, or quarter the size and either give up (freeing
the routine area) or retry. -/
theorem allocLoopSrc_succ (h : Host) (algoAddr fuel buffer_size : Nat) :
    allocLoopSrc h algoAddr (fuel + 1) buffer_size = fun s =>
      match target_alloc_working_area h buffer_size s with
      | (Except.ok (some addr), s') => (Except.ok addr, s')
      | (Except.ok none, s') =>
          if buffer_size / 4 ≤ 256 then
            match target_free_working_area h algoAddr s' with
            | (_, s'') => (Except.error Err.resourceNotAvailable, s'')
          else allocLoopSrc h algoAddr fuel (buffer_size / 4) s'
      | (Except.error e, s') => (Except.error e, s') := rfl

/-- `wbLoop` with budget left: stop when no words remain; otherwise
upload one chunk, run the routine, and advance by the words consumed. -/
theorem wbLoop_succ (h : Host) (algoAddr srcAddr buffer_size fuel count address : Nat)
    (buffer : List Nat) :
    wbLoop h algoAddr srcAddr buffer_size (fuel + 1) count address buffer = fun s =>
      if count == 0 then (Except.ok (), s)
      else
        let thisrun := if buffer_size / 4 < count then buffer_size / 4 else count
        match target_write_buffer h srcAddr (thisrun * 4) s with
        | (Except.error e, s') => (Except.error e, s')
        | (Except.ok _, s') =>
          match target_run_algorithm h algoAddr srcAddr address thisrun s' with
          | (Except.error _, s'') => (Except.error Err.flashOperationFailed, s'')
          | (Except.ok _, s'') =>
              wbLoop h algoAddr srcAddr buffer_size fuel (count - thisrun)
                (address + thisrun * 4) (buffer.drop thisrun) s'' := rfl

/-! ### C6: no operation touches the target while the CPU runs -/

/-- C6: when the CPU is not halted, `numicro_erase`, `numicro_write`,
`numicro_protect_check`, `numicro_init_isp` and the three ISP command
handlers all fail immediately with the not-halted error and leave the
machine state untouched — in particular no register write is issued. -/
theorem c6_not_halted_no_writes (h : Host) (buffer : List Nat)
    (first last offset count address ispdat c0g c1g : Nat) (s : St)
    (hh : h.halted = false) :
    numicro_erase h first last s = (Except.error Err.targetNotHalted, s) ∧
    numicro_write h buffer offset count s = (Except.error Err.targetNotHalted, s) ∧
    numicro_protect_check h c0g c1g s = (Except.error Err.targetNotHalted, s) ∧
    numicro_init_isp h s = (Except.error Err.targetNotHalted, s) ∧
    numicro_handle_read_isp_command h address s = (Except.error Err.targetNotHalted, s) ∧
    numicro_handle_write_isp_command h address ispdat s = (Except.error Err.targetNotHalted, s) ∧
    numicro_handle_chip_erase_command h s = (Except.error Err.targetNotHalted, s) := by
  refine ⟨?_, ?_, ?_, ?_, ?_, ?_, ?_⟩ <;>
    simp [numicro_erase, numicro_write, numicro_protect_check, numicro_init_isp,
      numicro_handle_read_isp_command, numicro_handle_write_isp_command,
      numicro_handle_chip_erase_command, M.bind, hh]

/-- C6 witness: the theorem applied to a concrete non-halted host. -/
theorem c6_witness :
    numicro_erase hostNotHalted 0 1 (st0 bank2) =
      (Except.error Err.targetNotHalted, st0 bank2) :=
  (c6_not_halted_no_writes hostNotHalted [] 0 1 0 0 0 0 0 0 (st0 bank2) rfl).1

/-! ### C1: a non-resource block-write failure is not propagated -/

set_option maxHeartbeats 8000000 in
/-- C1 counterexample: on `hostC1` the accelerator fails with
operation-failed (not resource-unavailable), yet `numicro_write` returns
OK instead of propagating that failure. -/
theorem c1_counterexample :
    (numicro_writeblock hostC1 [0xDEADBEEF] 0 1 (st0 bank2)).1 =
      Except.error Err.flashOperationFailed ∧
    (numicro_write hostC1 [0xDEADBEEF] 0 4 (st0 bank2)).1 = Except.ok () := by
  decide

/-- An error other than resource-unavailable does not pass the fallback
test of `numicro_write`. -/
theorem isRNA_error_false {α : Type} {e : Err}
    (hne : e ≠ Err.resourceNotAvailable) :
    isRNA (Except.error e : Except Err α) = false := by
  cases e <;> simp [isRNA]
  exact absurd rfl hne

/-- C1 amended: when the accelerator fails with any status other than
resource-unavailable, `numicro_write` neither falls back to the
single-word loop nor propagates the failure: the block-write error is
discarded and the call continues directly with the failure-flag
inspection, whose outcome (OK when its accesses succeed) becomes the
result of the whole write. -/
theorem c1_amended_write_discards_accel_error (h : Host)
    (buffer : List Nat) (offset count : Nat) (s s1 s2 : St) (e : Err)
    (hh : h.halted = true)
    (hinit : (M.bind (numicro_init_isp h)
        (fun _ => target_write_u32 h NUMICRO_FLASH_ISPCMD ISPCMD_WRITE)) s =
      (Except.ok (), s1))
    (hblock : numicro_writeblock h buffer offset (count / 4) s1 =
      (Except.error e, s2))
    (hne : e ≠ Err.resourceNotAvailable) :
    numicro_write h buffer offset count s = ispffClear h s2 := by
  simp only [numicro_write, hh, Bool.true_eq_false, if_false]
  rw [hinit]
  simp only []
  rw [hblock]
  simp only [isRNA_error_false hne, Bool.false_eq_true, if_false]

/-- C1 witness: the amended theorem applied to the concrete failing run
of `hostC1`. -/
theorem c1_witness :
    numicro_write hostC1 [0xDEADBEEF] 0 4 (st0 bank2) =
      ispffClear hostC1
        ((numicro_writeblock hostC1 [0xDEADBEEF] 0 1
          (((M.bind (numicro_init_isp hostC1)
              (fun _ => target_write_u32 hostC1 NUMICRO_FLASH_ISPCMD ISPCMD_WRITE))
            (st0 bank2)).2)).2) :=
  c1_amended_write_discards_accel_error hostC1 [0xDEADBEEF] 0 4 (st0 bank2)
    (((M.bind (numicro_init_isp hostC1)
        (fun _ => target_write_u32 hostC1 NUMICRO_FLASH_ISPCMD ISPCMD_WRITE))
      (st0 bank2)).2)
    ((numicro_writeblock hostC1 [0xDEADBEEF] 0 1
      (((M.bind (numicro_init_isp hostC1)
          (fun _ => target_write_u32 hostC1 NUMICRO_FLASH_ISPCMD ISPCMD_WRITE))
        (st0 bank2)).2)).2)
    Err.flashOperationFailed rfl (by decide) (by decide) (by decide)

/-! ### C2: an ISPFF failure does not abort the erase range -/

set_option maxHeartbeats 8000000 in
/-- C2 counterexample: on `hostC2` the failure flag reads set after each
sector, yet `numicro_erase` clears it (the ISPCON write of 0x40 is in
the trace), continues with sector 1 (its address write is in the trace)
and returns OK rather than aborting with an error. -/
theorem c2_counterexample :
    (numicro_erase hostC2 0 1 (st0 bank2)).1 = Except.ok () ∧
    Ev.writeReg NUMICRO_FLASH_ISPCON 64 ∈ (numicro_erase hostC2 0 1 (st0 bank2)).2.trace ∧
    Ev.writeReg NUMICRO_FLASH_ISPADR 512 ∈ (numicro_erase hostC2 0 1 (st0 bank2)).2.trace := by
  decide

/-! ### C3: the routine-upload failure path leaks its working area -/

set_option maxHeartbeats 8000000 in
/-- C3 counterexample: on `hostC3` the routine image upload fails after
the routine working area was allocated; `numicro_writeblock` returns the
upload error with that area still allocated — not every exit path frees
every allocation. -/
theorem c3_counterexample :
    (numicro_writeblock hostC3 [] 0 0 (st0 bank2)).1 = Except.error Err.fail ∧
    (numicro_writeblock hostC3 [] 0 0 (st0 bank2)).2.liveAreas = [0x20000000] := by
  decide

/-- Releasing the two scratch areas in reverse order of allocation
empties the bookkeeping, also when the allocator returned the same
address twice. -/
theorem erase_two_areas (a src : Nat) :
    ((([a, src] : List Nat).erase src).erase a : List Nat) = [] := by
  by_cases hsa : a = src
  · subst hsa
    simp [List.erase_cons]
  · simp [List.erase_cons, hsa]

/-- `wbLoop` with no budget. -/
theorem wbLoop_zero (h : Host) (algoAddr srcAddr buffer_size count address : Nat)
    (buffer : List Nat) :
    wbLoop h algoAddr srcAddr buffer_size 0 count address buffer = M.pure () := rfl

/-- The chunked programming loop allocates and frees nothing: the
live-area list is untouched on every path. -/
theorem wbLoop_liveAreas (h : Host) (algoAddr srcAddr buffer_size : Nat) :
    ∀ (fuel count address : Nat) (buffer : List Nat) (s : St),
      ((wbLoop h algoAddr srcAddr buffer_size fuel count address buffer s).2).liveAreas =
        s.liveAreas := by
  intro fuel
  induction fuel with
  | zero => intro count address buffer s; simp [wbLoop_zero, M.pure]
  | succ f ih =>
    intro count address buffer s
    rw [wbLoop_succ]
    by_cases hc : (count == 0) = true
    · simp [hc]
    · simp only [hc, Bool.false_eq_true, if_false]
      cases hw : h.wbufErr s.wbufIdx with
      | some e => simp [target_write_buffer, hw]
      | none =>
        simp only [target_write_buffer, hw, target_run_algorithm]
        cases hr : h.runErr s.runIdx with
        | some e => simp [hr]
        | none => simp [hr, ih]

/-- Outcomes of the data-buffer allocation loop, tracked on the
live-area list: starting with just the routine area live, it either
gives up with resource-unavailable having freed that area, or returns a
data area that joins the list.  The fuel covers the iteration count
whenever it is at least the starting size. -/
theorem allocLoopSrc_liveAreas (h : Host) (algoAddr : Nat) :
    ∀ (fuel bs : Nat) (s : St), 0 < bs → bs ≤ fuel →
      s.liveAreas = [algoAddr] →
      ((∃ t, allocLoopSrc h algoAddr fuel bs s =
          (Except.error Err.resourceNotAvailable, t) ∧ t.liveAreas = []) ∨
       (∃ src t, allocLoopSrc h algoAddr fuel bs s = (Except.ok src, t) ∧
          t.liveAreas = [algoAddr, src])) := by
  intro fuel
  induction fuel with
  | zero => intro bs s hbs hle hlive; omega
  | succ f ih =>
    intro bs s hbs hle hlive
    cases har : h.allocResult s.allocIdx with
    | some addr =>
      right
      exact ⟨addr, s.noteAllocOk bs addr,
        by simp [allocLoopSrc_succ, target_alloc_working_area, har],
        by simp [hlive]⟩
    | none =>
      by_cases hq : bs / 4 ≤ 256
      · left
        exact ⟨(s.noteAllocFail bs).freeArea algoAddr,
          by simp [allocLoopSrc_succ, target_alloc_working_area, har, hq,
            target_free_working_area],
          by simp [hlive, List.erase_cons]⟩
      · have hstep : allocLoopSrc h algoAddr (f + 1) bs s =
            allocLoopSrc h algoAddr f (bs / 4) (s.noteAllocFail bs) := by
          simp [allocLoopSrc_succ, target_alloc_working_area, har, hq]
        rw [hstep]
        exact ih (bs / 4) (s.noteAllocFail bs) (by omega) (by omega) (by simp [hlive])

/-- C3 amended: after the routine working area is allocated,
`numicro_writeblock` frees everything it allocated on every exit path
except one: when the upload of the routine image itself fails, it
returns that error with the routine area still booked.  The data-buffer
allocation failure, the chunk loop failure and the successful run all
end with an empty live-area list (second conjunct); a failed routine
allocation books nothing (third conjunct). -/
theorem c3_amended_release (h : Host) (buffer : List Nat) (offset count : Nat)
    (s : St)
    (halign : offset &&& 0x1 = 0)
    (hlive : s.liveAreas = []) :
    (∀ e a, h.allocResult s.allocIdx = some a → h.wbufErr s.wbufIdx = some e →
       numicro_writeblock h buffer offset count s =
         (Except.error e,
          ((s.noteAllocOk numicro_flash_write_code.length a).addEv
             (Ev.writeBuf a numicro_flash_write_code.length)).wtick) ∧
       ((((s.noteAllocOk numicro_flash_write_code.length a).addEv
             (Ev.writeBuf a numicro_flash_write_code.length)).wtick).liveAreas = [a])) ∧
    (h.wbufErr s.wbufIdx = none →
       ((numicro_writeblock h buffer offset count s).2).liveAreas = []) ∧
    (h.allocResult s.allocIdx = none →
       numicro_writeblock h buffer offset count s =
         (Except.error Err.resourceNotAvailable,
          s.noteAllocFail numicro_flash_write_code.length)) := by
  refine ⟨?_, ?_, ?_⟩
  · intro e a har hwb
    constructor
    · simp [numicro_writeblock, halign, target_alloc_working_area, har,
        target_write_buffer, hwb]
    · simp [hlive]
  · intro hwb
    simp only [numicro_writeblock, halign]
    cases har : h.allocResult s.allocIdx with
    | none => simp [target_alloc_working_area, har, hlive]
    | some a =>
      simp only [target_alloc_working_area, har, target_write_buffer, hwb]
      have hbs0 : 0 < (if 1024 < h.working_area_size / 2
          then h.working_area_size / 2 else 1024) := by
        split <;> omega
      rcases allocLoopSrc_liveAreas h a _ _
          ((s.noteAllocOk numicro_flash_write_code.length a).addEv
            (Ev.writeBuf a numicro_flash_write_code.length)).wtick
          hbs0 (Nat.le_refl _) (by simp [hlive]) with
        ⟨t, heq, hl⟩ | ⟨src, t, heq, hl⟩
      · simp [hwb, heq, hl]
      · simp [hwb, heq, target_free_working_area, wbLoop_liveAreas, hl, erase_two_areas]
  · intro har
    simp [numicro_writeblock, halign, target_alloc_working_area, har]

/-- C3 witness: the amended theorem's leak path on the concrete
`hostC3`. -/
theorem c3_witness :
    numicro_writeblock hostC3 [] 0 0 (st0 bank2) =
      (Except.error Err.fail,
       (((st0 bank2).noteAllocOk numicro_flash_write_code.length 0x20000000).addEv
          (Ev.writeBuf 0x20000000 numicro_flash_write_code.length)).wtick) :=
  ((c3_amended_release hostC3 [] 0 0 (st0 bank2) rfl rfl).1
    Err.fail 0x20000000 rfl rfl).1

/-! ### C4: erase does not set the erased flags -/

set_option maxHeartbeats 8000000 in
/-- C4 counterexample: a fully successful erase of sectors 0..1 on
`hostOk` returns OK but leaves both erased flags at -1 (unknown), not
true. -/
theorem c4_counterexample :
    (numicro_erase hostOk 0 1 (st0 bank2)).1 = Except.ok () ∧
    ((numicro_erase hostOk 0 1 (st0 bank2)).2.bank.sectors.map
      (fun sec => sec.is_erased)) = [-1, -1] := by
  decide

/-! ### C8: geometry resolution against the part catalog -/

/-- C8: probing reads the part identifier once and resolves it against
the catalog with a first-match linear scan.  When an entry matches and
one of its regions (among the entry's first `n_banks`, first match
again) has the bank's base address, the bank receives that region's size,
`size / 512` sectors (fresh, unknown-erased, unprotected) and the probed
mark.  When no catalog entry carries the identifier, probing fails with
the operation-failed error and the bank is left exactly as it was, in
particular unprobed. -/
theorem c8_probe_geometry :
    (∀ (pid : Nat) (c : NumicroCpuType),
      numicro_parts.find? (fun e => e.partid == pid) = some c →
      ∀ (h : Host) (s : St) (r : NumicroFlashBankType),
        h.accessErr s.idx = none →
        h.readVal NUMICRO_SYS_BASE s.idx = pid →
        (c.bank.take c.n_banks).find? (fun b => b.base == s.bank.base) = some r →
        numicro_probe h s =
          (Except.ok (),
           { s with
               idx := s.idx + 1,
               bank := { s.bank with
                           num_sectors := r.size / NUMICRO_PAGESIZE,
                           sectors := initSectors (r.size / NUMICRO_PAGESIZE),
                           size := r.size, probed := true, cpu := some c } })) ∧
    (∀ (pid : Nat) (h : Host) (s : St),
      h.accessErr s.idx = none →
      h.readVal NUMICRO_SYS_BASE s.idx = pid →
      numicro_parts.find? (fun e => e.partid == pid) = none →
      numicro_probe h s = (Except.error Err.flashOperationFailed, s.tick)) := by
  constructor
  · intro pid c hfind h s r hae hrv hreg
    simp only [numicro_probe, numicro_get_cpu_type, target_read_u32, hae, hrv, hfind,
      numicro_get_flash_size, hreg, Option.map_some, St.tick_bank, St.tick_idx]
    simp [St.tick]
  · intro pid h s hae hrv hfind
    simp only [numicro_probe, numicro_get_cpu_type, target_read_u32, hae, hrv, hfind]

/-- C8 witness: probing an unprobed bank at base 0 on a device
identifying as 0x00005A00 resolves to the 64 KiB APROM region: size
65536 and 128 sectors. -/
theorem c8_witness :
    (numicro_probe hostC8 (st0 bankU)).2.bank.size = 65536 ∧
    (numicro_probe hostC8 (st0 bankU)).2.bank.num_sectors = 128 ∧
    (numicro_probe hostC8 (st0 bankU)).2.bank.probed = true := by
  rw [(c8_probe_geometry).1 0x00005A00
    (mkPart "M0516LAN" 0x00005A00 (64 * 1024) (4 * 1024) (4 * 1024) 4)
    (by decide) hostC8 (st0 bankU) ⟨NUMICRO_APROM_BASE, 64 * 1024⟩
    rfl (by decide) (by decide)]
  decide

/-! ### C9: buffer sizing, shrink-retry, and the fallback guarantee -/

/-- `attemptSizes` with budget left. -/
theorem attemptSizes_succ (fuel bs : Nat) :
    attemptSizes (fuel + 1) bs =
      bs :: (if 256 < bs / 4 then attemptSizes fuel (bs / 4) else []) := rfl

/-- Every size in the retry sequence stays above the 256-byte floor when
the starting size does. -/
theorem attemptSizes_gt :
    ∀ (fuel bs : Nat), 256 < bs → ∀ x ∈ attemptSizes fuel bs, 256 < x := by
  intro fuel
  induction fuel with
  | zero => intro bs hbs x hx; simp [attemptSizes] at hx
  | succ f ih =>
    intro bs hbs x hx
    rw [attemptSizes_succ] at hx
    rcases List.mem_cons.mp hx with hx0 | hxr
    · omega
    · by_cases hq : 256 < bs / 4
      · exact ih (bs / 4) hq x (by simpa [hq] using hxr)
      · simp [hq] at hxr

/-- Booking a sequence of failed allocations appends exactly those sizes
to the request log. -/
theorem applyFails_allocReqs :
    ∀ (sizes : List Nat) (s : St),
      (applyFails s sizes).allocReqs = s.allocReqs ++ sizes := by
  intro sizes
  induction sizes with
  | nil => intro s; simp [applyFails]
  | cons x xs ih =>
    intro s
    have hstep : applyFails s (x :: xs) = applyFails (s.noteAllocFail x) xs := rfl
    rw [hstep, ih]
    simp

/-- When every data-buffer allocation fails, the allocation loop runs
through exactly the `attemptSizes` sequence of requests, frees the
routine area and gives up with resource-unavailable. -/
theorem allocLoopSrc_allFail (h : Host) (algoAddr : Nat) :
    ∀ (fuel bs : Nat) (s : St), 0 < bs → bs ≤ fuel →
      (∀ k, s.allocIdx ≤ k → h.allocResult k = none) →
      allocLoopSrc h algoAddr fuel bs s =
        (Except.error Err.resourceNotAvailable,
         (applyFails s (attemptSizes fuel bs)).freeArea algoAddr) := by
  intro fuel
  induction fuel with
  | zero => intro bs s hbs hle; omega
  | succ f ih =>
    intro bs s hbs hle hfail
    have har : h.allocResult s.allocIdx = none := hfail s.allocIdx (Nat.le_refl _)
    by_cases hq : 256 < bs / 4
    · have hstep : allocLoopSrc h algoAddr (f + 1) bs s =
          allocLoopSrc h algoAddr f (bs / 4) (s.noteAllocFail bs) := by
        simp [allocLoopSrc_succ, target_alloc_working_area, har, hq]
      rw [hstep, ih (bs / 4) (s.noteAllocFail bs) (by omega) (by omega)
        (fun k hk => hfail k (by simp at hk; omega))]
      have htail : applyFails s (attemptSizes (f + 1) bs) =
          applyFails (s.noteAllocFail bs) (attemptSizes f (bs / 4)) := by
        rw [attemptSizes_succ]
        simp [hq, applyFails]
      rw [htail]
    · simp [allocLoopSrc_succ, target_alloc_working_area, har, hq,
        target_free_working_area, attemptSizes_succ, applyFails]

/-- The block write with the routine area allocated and uploaded but
every data-buffer allocation refused: resource-unavailable, after
requesting the routine size and then the whole shrink sequence. -/
theorem writeblock_allFail (h : Host) (buffer : List Nat)
    (offset count : Nat) (s : St) (a : Nat)
    (halign : offset &&& 0x1 = 0)
    (halloc0 : h.allocResult s.allocIdx = some a)
    (hallocrest : ∀ k, s.allocIdx < k → h.allocResult k = none)
    (hwbuf : h.wbufErr s.wbufIdx = none) :
    numicro_writeblock h buffer offset count s =
      (Except.error Err.resourceNotAvailable,
       (applyFails
          (((s.noteAllocOk numicro_flash_write_code.length a).addEv
             (Ev.writeBuf a numicro_flash_write_code.length)).wtick)
          (attemptSizes
            (if 1024 < h.working_area_size / 2 then h.working_area_size / 2 else 1024)
            (if 1024 < h.working_area_size / 2 then h.working_area_size / 2 else 1024))).freeArea a) := by
  have hbs0 : 0 < (if 1024 < h.working_area_size / 2
      then h.working_area_size / 2 else 1024) := by
    split <;> omega
  simp only [numicro_writeblock, halign, bne_self_eq_false, Bool.false_eq_true,
    if_false, target_alloc_working_area, halloc0]
  simp only [St.noteAllocOk_wbufIdx, target_write_buffer, hwbuf]
  rw [allocLoopSrc_allFail h a _ _ _ hbs0 (Nat.le_refl _)
    (fun k hk => hallocrest k (by simp at hk; omega))]

/-- A bind avoids an error code when both parts do. -/
theorem nr_bind {α β : Type} {m : M α} {f : α → M β} {e0 : Err}
    (hm : ∀ s, (m s).1 ≠ Except.error e0) (hf : ∀ a s, (f a s).1 ≠ Except.error e0)
    (s : St) : (M.bind m f s).1 ≠ Except.error e0 := by
  unfold M.bind
  rcases hr : m s with ⟨r, s'⟩
  cases r with
  | ok a => simpa using hf a s'
  | error e =>
    have := hm s
    rw [hr] at this
    simpa using this

/-- Register reads never surface resource-unavailable when the host's
memory layer never does. -/
theorem nr_read (h : Host)
    (hnacc : ∀ k, h.accessErr k ≠ some Err.resourceNotAvailable) (addr : Nat) :
    ∀ s, (target_read_u32 h addr s).1 ≠ Except.error Err.resourceNotAvailable := by
  intro s
  unfold target_read_u32
  cases hk : h.accessErr s.idx with
  | none => simp
  | some e =>
    simp only []
    intro hEq
    exact hnacc s.idx (by rw [hk, Except.error.inj hEq])

/-- Register writes never surface resource-unavailable either. -/
theorem nr_write (h : Host)
    (hnacc : ∀ k, h.accessErr k ≠ some Err.resourceNotAvailable) (addr val : Nat) :
    ∀ s, (target_write_u32 h addr val s).1 ≠ Except.error Err.resourceNotAvailable := by
  intro s
  unfold target_write_u32
  cases hk : h.accessErr s.idx with
  | none => simp
  | some e =>
    simp only []
    intro hEq
    exact hnacc s.idx (by rw [hk, Except.error.inj hEq])

/-- The zero-poll loop fails only with access errors or the timeout
code, never with resource-unavailable. -/
theorem nr_pollZero (h : Host)
    (hnacc : ∀ k, h.accessErr k ≠ some Err.resourceNotAvailable) :
    ∀ (fuel : Nat) (s : St),
      (pollZero h fuel s).1 ≠ Except.error Err.resourceNotAvailable := by
  intro fuel
  induction fuel with
  | zero =>
    intro s
    rw [pollZero_zero]
    refine nr_bind (nr_read h hnacc _) (fun a s' => ?_) s
    by_cases hz : (a == 0) = true <;> simp [hz, M.pure, M.err]
  | succ f ih =>
    intro s
    rw [pollZero_succ]
    refine nr_bind (nr_read h hnacc _) (fun a s' => ?_) s
    by_cases hz : (a == 0) = true
    · simp [hz, M.pure]
    · simp only [hz, Bool.false_eq_true, if_false]
      exact nr_bind (fun t => by simp [busy_sleep]) (fun _ t => ih t) s'

/-- The failure-flag inspection never surfaces resource-unavailable. -/
theorem nr_ispffClear (h : Host)
    (hnacc : ∀ k, h.accessErr k ≠ some Err.resourceNotAvailable) :
    ∀ s, (ispffClear h s).1 ≠ Except.error Err.resourceNotAvailable := by
  intro s
  unfold ispffClear
  refine nr_bind (nr_read h hnacc _) (fun a s' => ?_) s
  by_cases hz : (a &&& ISPCON_ISPFF != 0) = true
  · simp only [hz, if_true]
    exact nr_write h hnacc _ _ s'
  · simp [hz, M.pure]

/-- The single-word fallback loop never surfaces resource-unavailable. -/
theorem nr_writeWordLoop (h : Host)
    (hnacc : ∀ k, h.accessErr k ≠ some Err.resourceNotAvailable)
    (base offset : Nat) (buffer : List Nat) :
    ∀ (l : List Nat) (s : St),
      (writeWordLoop h base offset buffer l s).1 ≠
        Except.error Err.resourceNotAvailable := by
  intro l
  induction l with
  | nil => intro s; simp [writeWordLoop, M.pure]
  | cons i rest ih =>
    intro s
    unfold writeWordLoop
    refine nr_bind (nr_write h hnacc _ _) (fun _ s1 => ?_) s
    refine nr_bind (nr_write h hnacc _ _) (fun _ s2 => ?_) s1
    refine nr_bind (nr_write h hnacc _ _) (fun _ s3 => ?_) s2
    exact nr_bind (nr_pollZero h hnacc 100) (fun _ s4 => ih s4) s3

/-- The unlock sequence never surfaces resource-unavailable. -/
theorem nr_reg_unlock (h : Host)
    (hnacc : ∀ k, h.accessErr k ≠ some Err.resourceNotAvailable) :
    ∀ s, (numicro_reg_unlock h s).1 ≠ Except.error Err.resourceNotAvailable := by
  intro s
  unfold numicro_reg_unlock
  refine nr_bind (nr_read h hnacc _) (fun a s1 => ?_) s
  refine nr_bind (fun t => ?_) (fun _ s2 =>
    nr_bind (nr_read h hnacc _) (fun _ s3 => by simp [M.pure]) s2) s1
  by_cases hz : (a == 0) = true
  · simp only [hz, if_true]
    refine nr_bind (nr_write h hnacc _ _) (fun _ t1 => ?_) t
    exact nr_bind (nr_write h hnacc _ _) (fun _ t2 => nr_write h hnacc _ _ t2) t1
  · simp [hz, M.pure]

/-- The ISP init never surfaces resource-unavailable. -/
theorem nr_init_isp (h : Host)
    (hnacc : ∀ k, h.accessErr k ≠ some Err.resourceNotAvailable) :
    ∀ s, (numicro_init_isp h s).1 ≠ Except.error Err.resourceNotAvailable := by
  intro s
  unfold numicro_init_isp
  by_cases hh : h.halted = false
  · simp [hh]
  · simp only [hh, if_false]
    refine nr_bind (nr_reg_unlock h hnacc) (fun _ s1 => ?_) s
    refine nr_bind (nr_read h hnacc _) (fun _ s2 => ?_) s1
    refine nr_bind (nr_write h hnacc _ _) (fun _ s3 => ?_) s2
    refine nr_bind (nr_read h hnacc _) (fun _ s4 => ?_) s3
    refine nr_bind (nr_write h hnacc _ _) (fun _ s5 => ?_) s4
    exact nr_write h hnacc _ _ s5

/-- The common tail of `numicro_write`: propagate an error, or run the
failure-flag check.  It avoids resource-unavailable when its input and
the flag check do. -/
theorem nr_tail (h : Host)
    (hnacc : ∀ k, h.accessErr k ≠ some Err.resourceNotAvailable)
    (q : Except Err Unit × St)
    (hq : q.1 ≠ Except.error Err.resourceNotAvailable) :
    (match q with
     | (Except.error e, s3) => (Except.error e, s3)
     | (Except.ok _, s3) => ispffClear h s3).1 ≠
      Except.error Err.resourceNotAvailable := by
  rcases q with ⟨r, t⟩
  cases r with
  | error e => simpa using hq
  | ok v => simpa using nr_ispffClear h hnacc t

/-- `numicro_write` never fails with resource-unavailable, whatever the
accelerator does: that status only ever selects the fallback path. -/
theorem nr_numicro_write (h : Host)
    (hnacc : ∀ k, h.accessErr k ≠ some Err.resourceNotAvailable)
    (buffer : List Nat) (offset count : Nat) :
    ∀ s, (numicro_write h buffer offset count s).1 ≠
      Except.error Err.resourceNotAvailable := by
  intro s
  unfold numicro_write
  by_cases hh : h.halted = false
  · simp [hh]
  · have hh2 : h.halted = true := by revert hh; cases h.halted <;> simp
    simp only [hh2, Bool.true_eq_false, if_false]
    rcases hr : (M.bind (numicro_init_isp h)
        (fun _ => target_write_u32 h NUMICRO_FLASH_ISPCMD ISPCMD_WRITE)) s with ⟨r1, s1⟩
    cases r1 with
    | error e =>
      have hnr := @nr_bind Unit Unit (numicro_init_isp h)
        (fun _ => target_write_u32 h NUMICRO_FLASH_ISPCMD ISPCMD_WRITE)
        Err.resourceNotAvailable (nr_init_isp h hnacc)
        (fun _ t => nr_write h hnacc NUMICRO_FLASH_ISPCMD ISPCMD_WRITE t) s
      rw [hr] at hnr
      simpa using hnr
    | ok u =>
      dsimp only
      refine nr_tail h hnacc _ ?_
      by_cases hir :
          isRNA ((numicro_writeblock h buffer offset (count / 4) s1).1) = true
      · simp only [hir, if_true]
        exact nr_writeWordLoop h hnacc _ _ _ _ _
      · simp only [hir, Bool.false_eq_true, if_false]
        simp

/-- C9: the data scratch buffer request starts at the larger of 1024
bytes and half the target's working-area size; on each allocation
failure the request shrinks fourfold; every requested size stays above
the 256-byte floor; when every size is refused the block write gives up
with resource-unavailable — upon which `numicro_write` takes the
single-word fallback, so a write never fails with resource-unavailable
as long as the plain memory accesses never produce that status. -/
theorem c9_alloc_sizes_and_fallback (h : Host) (buffer : List Nat)
    (offset count wcount : Nat) (s : St) (a : Nat)
    (halign : offset &&& 0x1 = 0)
    (halloc0 : h.allocResult s.allocIdx = some a)
    (hallocrest : ∀ k, s.allocIdx < k → h.allocResult k = none)
    (hwbuf : h.wbufErr s.wbufIdx = none) :
    ((numicro_writeblock h buffer offset wcount s).1 =
        Except.error Err.resourceNotAvailable) ∧
    (((numicro_writeblock h buffer offset wcount s).2).allocReqs =
        s.allocReqs ++ numicro_flash_write_code.length ::
          attemptSizes
            (if 1024 < h.working_area_size / 2 then h.working_area_size / 2 else 1024)
            (if 1024 < h.working_area_size / 2 then h.working_area_size / 2 else 1024)) ∧
    (∀ x ∈ attemptSizes
        (if 1024 < h.working_area_size / 2 then h.working_area_size / 2 else 1024)
        (if 1024 < h.working_area_size / 2 then h.working_area_size / 2 else 1024),
      256 < x) ∧
    ((attemptSizes
        (if 1024 < h.working_area_size / 2 then h.working_area_size / 2 else 1024)
        (if 1024 < h.working_area_size / 2 then h.working_area_size / 2 else 1024)).head? =
      some (if 1024 < h.working_area_size / 2 then h.working_area_size / 2 else 1024)) ∧
    ((∀ k, h.accessErr k ≠ some Err.resourceNotAvailable) →
      (numicro_write h buffer offset count s).1 ≠
        Except.error Err.resourceNotAvailable) := by
  have hwb := writeblock_allFail h buffer offset wcount s a halign halloc0
    hallocrest hwbuf
  have h256 : 256 <
      (if 1024 < h.working_area_size / 2 then h.working_area_size / 2 else 1024) := by
    split <;> omega
  refine ⟨?_, ?_, ?_, ?_, ?_⟩
  · rw [hwb]
  · rw [hwb]
    simp [applyFails_allocReqs]
  · exact attemptSizes_gt _ _ h256
  · obtain ⟨f, hf⟩ : ∃ f,
        (if 1024 < h.working_area_size / 2 then h.working_area_size / 2 else 1024) =
          f + 1 :=
      ⟨(if 1024 < h.working_area_size / 2 then h.working_area_size / 2 else 1024) - 1,
       by omega⟩
    rw [hf, attemptSizes_succ]
    simp
  · intro hnacc
    exact nr_numicro_write h hnacc buffer offset count s

/-- C9 witness: on `hostC9` (16 KiB working area, only the routine
allocation honoured) the block write requests 64, 8192, 2048 and 512
bytes, then reports resource-unavailable — and `numicro_write` still
does not fail with resource-unavailable. -/
theorem c9_witness :
    (numicro_writeblock hostC9 [] 0 0 (st0 bank2)).1 =
      Except.error Err.resourceNotAvailable ∧
    ((numicro_writeblock hostC9 [] 0 0 (st0 bank2)).2).allocReqs =
      [64, 8192, 2048, 512] ∧
    (numicro_write hostC9 [0, 0] 0 8 (st0 bank2)).1 ≠
      Except.error Err.resourceNotAvailable := by
  have h9 := c9_alloc_sizes_and_fallback hostC9 [] 0 8 0 (st0 bank2) 500 rfl rfl
    (fun k hk => by
      have hkne : k ≠ 0 := by
        simp only [st0] at hk
        omega
      simp [hostC9, hkne])
    rfl
  refine ⟨h9.1, ?_, h9.2.2.2.2 (fun k => by simp [hostC9])⟩
  rw [h9.2.1]
  decide

/-! ### C10: protect-check ignores the configuration-read statuses -/

/-- C10: whatever the two configuration reads return — including
failures such as poll timeouts — a halted `numicro_protect_check` whose
init succeeded paints every sector's protected flag with the lock bit
derived from CONFIG0's value (or, when the read failed, from the
uninitialized local `c0g`) and returns success. -/
theorem c10_protect_check_ignores_read_status (h : Host) (c0g c1g : Nat)
    (s s1 s2 s3 : St) (r0 r1 : Except Err Nat)
    (hh : h.halted = true)
    (hinit : numicro_init_isp h s = (Except.ok (), s1))
    (hc0 : numicro_fmc_cmd h ISPCMD_READ NUMICRO_CONFIG0 0 s1 = (r0, s2))
    (hc1 : numicro_fmc_cmd h ISPCMD_READ NUMICRO_CONFIG1 0 s2 = (r1, s3)) :
    numicro_protect_check h c0g c1g s =
      (Except.ok (),
       s3.paintProtected
         (if valOr r0 c0g &&& CONFIG0_LOCK_MASK == 0 then 1 else 0)) := by
  simp only [numicro_protect_check, hh, Bool.true_eq_false, if_false]
  rw [hinit]
  simp only []
  rw [hc0]
  simp only []
  rw [hc1]

set_option maxHeartbeats 4000000 in
set_option maxRecDepth 8192 in
/-- C10 witness: on `hostC10` both configuration reads time out, yet the
protect check returns OK (and paints the bank from the garbage value 0,
i.e. secure-locked). -/
theorem c10_witness :
    (numicro_protect_check hostC10 0 0 (st0 bank2)).1 = Except.ok () := by
  rw [c10_protect_check_ignores_read_status hostC10 0 0 (st0 bank2)
    ((numicro_init_isp hostC10 (st0 bank2)).2)
    ((numicro_fmc_cmd hostC10 ISPCMD_READ NUMICRO_CONFIG0 0
      ((numicro_init_isp hostC10 (st0 bank2)).2)).2)
    ((numicro_fmc_cmd hostC10 ISPCMD_READ NUMICRO_CONFIG1 0
      ((numicro_fmc_cmd hostC10 ISPCMD_READ NUMICRO_CONFIG0 0
        ((numicro_init_isp hostC10 (st0 bank2)).2)).2)).2)
    ((numicro_fmc_cmd hostC10 ISPCMD_READ NUMICRO_CONFIG0 0
      ((numicro_init_isp hostC10 (st0 bank2)).2)).1)
    ((numicro_fmc_cmd hostC10 ISPCMD_READ NUMICRO_CONFIG1 0
      ((numicro_fmc_cmd hostC10 ISPCMD_READ NUMICRO_CONFIG0 0
        ((numicro_init_isp hostC10 (st0 bank2)).2)).2)).1)
    rfl (by decide) (by decide) (by decide)]

/-! ### Bank-preservation frame lemmas -/

/-- A bind preserves the bank when both computations do. -/
theorem bank_bind {α β : Type} {m : M α} {f : α → M β}
    (hm : ∀ s, ((m s).2).bank = s.bank) (hf : ∀ a s, ((f a s).2).bank = s.bank)
    (s : St) : ((M.bind m f s).2).bank = s.bank := by
  unfold M.bind
  rcases hr : m s with ⟨r, s'⟩
  have h1 : s'.bank = s.bank := by
    have := hm s
    rw [hr] at this
    exact this
  cases r with
  | ok a => simpa [h1] using hf a s'
  | error e => simpa using h1

/-- Register reads leave the bank unchanged. -/
theorem bank_target_read_u32 (h : Host) (addr : Nat) (s : St) :
    ((target_read_u32 h addr s).2).bank = s.bank := by
  unfold target_read_u32
  cases h.accessErr s.idx <;> simp

/-- Register writes leave the bank unchanged. -/
theorem bank_target_write_u32 (h : Host) (addr val : Nat) (s : St) :
    ((target_write_u32 h addr val s).2).bank = s.bank := by
  unfold target_write_u32
  cases h.accessErr s.idx <;> simp

/-- Sleeping leaves the bank unchanged. -/
theorem bank_busy_sleep (ms : Nat) (s : St) :
    ((busy_sleep ms s).2).bank = s.bank := by
  unfold busy_sleep
  simp

/-- The zero-poll loop leaves the bank unchanged. -/
theorem bank_pollZero (h : Host) :
    ∀ (fuel : Nat) (s : St), ((pollZero h fuel s).2).bank = s.bank := by
  intro fuel
  induction fuel with
  | zero =>
    intro s
    rw [pollZero_zero]
    refine bank_bind (bank_target_read_u32 h _) (fun a s' => ?_) s
    by_cases hz : (a == 0) = true <;> simp [hz, M.pure, M.err]
  | succ f ih =>
    intro s
    rw [pollZero_succ]
    refine bank_bind (bank_target_read_u32 h _) (fun a s' => ?_) s
    by_cases hz : (a == 0) = true
    · simp [hz, M.pure]
    · simp only [hz, if_false, Bool.false_eq_true]
      exact bank_bind (bank_busy_sleep 1) (fun _ s'' => ih s'') s'

/-- The failure-flag inspection leaves the bank unchanged. -/
theorem bank_ispffClear (h : Host) (s : St) :
    ((ispffClear h s).2).bank = s.bank := by
  unfold ispffClear
  refine bank_bind (bank_target_read_u32 h _) (fun a s' => ?_) s
  by_cases hz : (a &&& ISPCON_ISPFF != 0) = true <;>
    simp [hz, M.pure, bank_target_write_u32]

/-- One erase-loop pass leaves the bank unchanged. -/
theorem bank_eraseSector (h : Host) (i : Nat) (s : St) :
    ((eraseSector h i s).2).bank = s.bank := by
  unfold eraseSector
  refine bank_bind (bank_target_write_u32 h _ _) (fun _ s1 => ?_) s
  refine bank_bind (bank_target_write_u32 h _ _) (fun _ s2 => ?_) s1
  exact bank_bind (bank_pollZero h 100) (fun _ s3 => bank_ispffClear h s3) s2

/-- The erase loop leaves the bank unchanged. -/
theorem bank_eraseLoop (h : Host) :
    ∀ (l : List Nat) (s : St), ((eraseLoop h l s).2).bank = s.bank := by
  intro l
  induction l with
  | nil => intro s; simp [eraseLoop, M.pure]
  | cons i rest ih =>
    intro s
    unfold eraseLoop
    exact bank_bind (bank_eraseSector h i) (fun _ s' => ih s') s

/-- The unlock sequence leaves the bank unchanged. -/
theorem bank_numicro_reg_unlock (h : Host) (s : St) :
    ((numicro_reg_unlock h s).2).bank = s.bank := by
  unfold numicro_reg_unlock
  refine bank_bind (bank_target_read_u32 h _) (fun a s1 => ?_) s
  refine bank_bind (fun s' => ?_) (fun _ s2 =>
    bank_bind (bank_target_read_u32 h _) (fun _ s3 => rfl) s2) s1
  by_cases hz : (a == 0) = true
  · simp only [hz, if_true]
    refine bank_bind (bank_target_write_u32 h _ _) (fun _ t1 => ?_) s'
    exact bank_bind (bank_target_write_u32 h _ _)
      (fun _ t2 => bank_target_write_u32 h _ _ t2) t1
  · simp [hz, M.pure]

/-- The ISP init leaves the bank unchanged. -/
theorem bank_numicro_init_isp (h : Host) (s : St) :
    ((numicro_init_isp h s).2).bank = s.bank := by
  unfold numicro_init_isp
  by_cases hh : h.halted = false
  · simp [hh]
  · simp only [hh, if_false]
    refine bank_bind (bank_numicro_reg_unlock h) (fun _ s1 => ?_) s
    refine bank_bind (bank_target_read_u32 h _) (fun _ s2 => ?_) s1
    refine bank_bind (bank_target_write_u32 h _ _) (fun _ s3 => ?_) s2
    refine bank_bind (bank_target_read_u32 h _) (fun _ s4 => ?_) s3
    refine bank_bind (bank_target_write_u32 h _ _) (fun _ s5 => ?_) s4
    exact bank_target_write_u32 h _ _ s5

/-- C4 amended: `numicro_erase` never modifies the flash-bank record:
whatever the host does and whatever the outcome, the sector array —
erased flags included — is exactly what it was before the call (the
probe initializes the flags to unknown and erase does not set them). -/
theorem c4_amended_bank_unchanged (h : Host) (first last : Nat) (s : St) :
    ((numicro_erase h first last s).2).bank = s.bank := by
  unfold numicro_erase
  by_cases hh : h.halted = false
  · simp [hh]
  · simp only [hh, if_false]
    refine bank_bind (bank_numicro_init_isp h) (fun _ s1 => ?_) s
    refine bank_bind (bank_target_write_u32 h _ _) (fun _ s2 => ?_) s1
    exact bank_eraseLoop h _ s2

/-! ### C7: the command-engine protocol -/

/-- When every access succeeds, the GO bit reads set on the first `n`
polls and clear on poll `n`, and the budget suffices, the poll loop
returns the final trigger value after `n` one-millisecond sleeps. -/
theorem fmcPoll_busy (h : Host) (hae : ∀ k, h.accessErr k = none) (n : Nat) :
    ∀ fuel s, n ≤ fuel →
      (∀ i, i < n → h.readVal NUMICRO_FLASH_ISPTRG (s.idx + i) &&& ISPTRG_ISPGO ≠ 0) →
      h.readVal NUMICRO_FLASH_ISPTRG (s.idx + n) &&& ISPTRG_ISPGO = 0 →
      fmcPoll h fuel s =
        (Except.ok (h.readVal NUMICRO_FLASH_ISPTRG (s.idx + n)),
         { s with idx := s.idx + n + 1,
                  trace := s.trace ++ List.replicate n (Ev.sleepMs 1) }) := by
  induction n with
  | zero =>
    intro fuel s _ _ hclear
    cases fuel with
    | zero =>
      simp only [Nat.add_zero] at hclear
      simp [fmcPoll_zero, M.bind, target_read_u32, hae, M.pure, St.tick, hclear]
    | succ f =>
      simp only [Nat.add_zero] at hclear
      simp [fmcPoll_succ, M.bind, target_read_u32, hae, M.pure, St.tick, hclear]
  | succ n ih =>
    intro fuel s hfuel hbusy hclear
    cases fuel with
    | zero => omega
    | succ f =>
      have h0 : h.readVal NUMICRO_FLASH_ISPTRG s.idx &&& ISPTRG_ISPGO ≠ 0 := by
        have := hbusy 0 (Nat.succ_pos n)
        simpa using this
      have hrec := ih f ((s.tick).addEv (Ev.sleepMs 1)) (by omega)
        (fun i hi => by
          have := hbusy (i + 1) (by omega)
          simpa [St.tick, St.addEv, Nat.add_assoc, Nat.add_comm, Nat.add_left_comm]
            using this)
        (by
          have := hclear
          simpa [St.tick, St.addEv, Nat.add_assoc, Nat.add_comm, Nat.add_left_comm]
            using this)
      rw [fmcPoll_succ]
      simp only [M.bind, target_read_u32, hae, busy_sleep]
      rw [if_neg (by simpa using h0)]
      simp only [M.bind, busy_sleep]
      rw [hrec]
      have harith : s.idx + 1 + n = s.idx + (n + 1) := by omega
      simp only [St.tick, St.addEv]
      simp [harith, List.replicate_succ, List.append_assoc]

/-- When every access succeeds and the GO bit reads set on every poll
the budget allows, the poll loop fails with ERROR_FAIL after consuming
the whole budget of sleeps. -/
theorem fmcPoll_timeout (h : Host) (hae : ∀ k, h.accessErr k = none) :
    ∀ fuel s,
      (∀ i, i ≤ fuel → h.readVal NUMICRO_FLASH_ISPTRG (s.idx + i) &&& ISPTRG_ISPGO ≠ 0) →
      fmcPoll h fuel s =
        (Except.error Err.fail,
         { s with idx := s.idx + fuel + 1,
                  trace := s.trace ++ List.replicate fuel (Ev.sleepMs 1) }) := by
  intro fuel
  induction fuel with
  | zero =>
    intro s hbusy
    have h0 : h.readVal NUMICRO_FLASH_ISPTRG s.idx &&& ISPTRG_ISPGO ≠ 0 := by
      simpa using hbusy 0 (Nat.le_refl 0)
    simp [fmcPoll_zero, M.bind, target_read_u32, hae, M.err, St.tick, h0]
  | succ f ih =>
    intro s hbusy
    have h0 : h.readVal NUMICRO_FLASH_ISPTRG s.idx &&& ISPTRG_ISPGO ≠ 0 := by
      simpa using hbusy 0 (Nat.zero_le _)
    have hrec := ih ((s.tick).addEv (Ev.sleepMs 1))
      (fun i hi => by
        have := hbusy (i + 1) (by omega)
        simpa [St.tick, St.addEv, Nat.add_assoc, Nat.add_comm, Nat.add_left_comm]
          using this)
    rw [fmcPoll_succ]
    simp only [M.bind, target_read_u32, hae, busy_sleep]
    rw [if_neg (by simpa using h0)]
    simp only [M.bind, busy_sleep]
    rw [hrec]
    have harith : s.idx + 1 + f = s.idx + (f + 1) := by omega
    simp only [St.tick, St.addEv]
    simp [harith, List.replicate_succ, List.append_assoc]

/-- C7: for every command, address and data word, on a device whose
accesses all succeed, `numicro_fmc_cmd` writes the command, data,
address and trigger registers in that order; when the GO bit clears on
poll `n ≤ 100` it returns the ISPDAT read-back after `n` one-millisecond
retry sleeps, and when GO stays set beyond the 100-retry budget it fails
with the timeout error after exactly 100 sleeps. -/
theorem c7_fmc_cmd_protocol (h : Host) (cmd addr wdata : Nat) (s : St) (n : Nat)
    (hae : ∀ k, h.accessErr k = none)
    (hbusy : ∀ i, i < n →
      h.readVal NUMICRO_FLASH_ISPTRG (s.idx + 4 + i) &&& ISPTRG_ISPGO ≠ 0) :
    (n ≤ 100 → h.readVal NUMICRO_FLASH_ISPTRG (s.idx + 4 + n) &&& ISPTRG_ISPGO = 0 →
      numicro_fmc_cmd h cmd addr wdata s =
        (Except.ok (h.readVal NUMICRO_FLASH_ISPDAT (s.idx + 4 + n + 1)),
         { s with idx := s.idx + 4 + n + 2,
                  trace := s.trace ++
                    [Ev.writeReg NUMICRO_FLASH_ISPCMD cmd,
                     Ev.writeReg NUMICRO_FLASH_ISPDAT wdata,
                     Ev.writeReg NUMICRO_FLASH_ISPADR addr,
                     Ev.writeReg NUMICRO_FLASH_ISPTRG ISPTRG_ISPGO] ++
                    List.replicate n (Ev.sleepMs 1) })) ∧
    (100 < n →
      numicro_fmc_cmd h cmd addr wdata s =
        (Except.error Err.fail,
         { s with idx := s.idx + 105,
                  trace := s.trace ++
                    [Ev.writeReg NUMICRO_FLASH_ISPCMD cmd,
                     Ev.writeReg NUMICRO_FLASH_ISPDAT wdata,
                     Ev.writeReg NUMICRO_FLASH_ISPADR addr,
                     Ev.writeReg NUMICRO_FLASH_ISPTRG ISPTRG_ISPGO] ++
                    List.replicate 100 (Ev.sleepMs 1) })) := by
  constructor
  · intro hn hclear
    rw [numicro_fmc_cmd]
    simp only [M.bind, target_write_u32, hae]
    rw [fmcPoll_busy h hae n 100
      ((((s.addEv (Ev.writeReg NUMICRO_FLASH_ISPCMD cmd)).tick.addEv
          (Ev.writeReg NUMICRO_FLASH_ISPDAT wdata)).tick.addEv
          (Ev.writeReg NUMICRO_FLASH_ISPADR addr)).tick.addEv
          (Ev.writeReg NUMICRO_FLASH_ISPTRG ISPTRG_ISPGO)).tick hn
      (fun i hi => by
        have := hbusy i hi
        simpa [St.tick, St.addEv, Nat.add_assoc, Nat.add_comm, Nat.add_left_comm]
          using this)
      (by
        have := hclear
        simpa [St.tick, St.addEv, Nat.add_assoc, Nat.add_comm, Nat.add_left_comm]
          using this)]
    simp [target_read_u32, hae, St.tick, St.addEv]
  · intro hn
    rw [numicro_fmc_cmd]
    simp only [M.bind, target_write_u32, hae]
    rw [fmcPoll_timeout h hae 100
      ((((s.addEv (Ev.writeReg NUMICRO_FLASH_ISPCMD cmd)).tick.addEv
          (Ev.writeReg NUMICRO_FLASH_ISPDAT wdata)).tick.addEv
          (Ev.writeReg NUMICRO_FLASH_ISPADR addr)).tick.addEv
          (Ev.writeReg NUMICRO_FLASH_ISPTRG ISPTRG_ISPGO)).tick
      (fun i hi => by
        have := hbusy i (by omega)
        simpa [St.tick, St.addEv, Nat.add_assoc, Nat.add_comm, Nat.add_left_comm]
          using this)]
    simp [St.tick, St.addEv]

/-- C7 witness: a concrete read command on `hostC7` goes busy for two
polls, then returns the data register value, with the four protocol
writes and two sleeps in the trace. -/
theorem c7_witness :
    numicro_fmc_cmd hostC7 ISPCMD_READ 4096 0 (st0 bank2) =
      (Except.ok 0x12345678,
       { (st0 bank2) with
           idx := 8,
           trace := [Ev.writeReg NUMICRO_FLASH_ISPCMD ISPCMD_READ,
                     Ev.writeReg NUMICRO_FLASH_ISPDAT 0,
                     Ev.writeReg NUMICRO_FLASH_ISPADR 4096,
                     Ev.writeReg NUMICRO_FLASH_ISPTRG ISPTRG_ISPGO,
                     Ev.sleepMs 1, Ev.sleepMs 1] }) := by
  have h := (c7_fmc_cmd_protocol hostC7 ISPCMD_READ 4096 0 (st0 bank2) 2
      (fun k => rfl) (by decide)).1 (by omega) (by decide)
  rw [h]
  decide

/-! ### Good-host run lemmas for the init and erase paths -/

/-- A poll that reads zero at once succeeds immediately, whatever the
remaining budget. -/
theorem pollZero_immediate (h : Host) (fuel : Nat) (s : St)
    (hae : h.accessErr s.idx = none)
    (h0 : h.readVal NUMICRO_FLASH_ISPTRG s.idx = 0) :
    pollZero h fuel s = (Except.ok 0, s.tick) := by
  cases fuel with
  | zero => simp [pollZero_zero, M.bind, target_read_u32, hae, h0, M.pure]
  | succ f => simp [pollZero_succ, M.bind, target_read_u32, hae, h0, M.pure]

/-- A successful ISP init on a halted host whose accesses succeed and
whose WRPROT register reads unprotected: seven accesses and the three
writes of `initTrace`. -/
theorem numicro_init_isp_run (h : Host) (s : St)
    (hh : h.halted = true)
    (hae : ∀ k, h.accessErr k = none)
    (hwr : ∀ k, h.readVal NUMICRO_SYS_WRPROT k = 1) :
    numicro_init_isp h s =
      (Except.ok (),
       { s with idx := s.idx + 7, trace := s.trace ++ initTrace h s.idx }) := by
  simp only [numicro_init_isp, hh, Bool.true_eq_false, if_false,
    numicro_reg_unlock, M.bind, M.pure, target_read_u32, target_write_u32, hae, hwr]
  simp [M.pure, initTrace, St.tick, St.addEv, add_assoc]

/-- One pass of the erase loop body on a host whose accesses succeed,
whose trigger register reads zero, and whose ISPCON reads `v`: the
address write, the trigger, one poll read, the flag inspection and — iff
`v` has ISPFF set — the clearing write. -/
theorem eraseSector_run (h : Host) (v : Nat)
    (hae : ∀ k, h.accessErr k = none)
    (htrg : ∀ k, h.readVal NUMICRO_FLASH_ISPTRG k = 0)
    (hcon : ∀ k, h.readVal NUMICRO_FLASH_ISPCON k = v) (i : Nat) (s : St) :
    eraseSector h i s =
      (Except.ok (),
       { s with
           idx := s.idx + (if v &&& ISPCON_ISPFF != 0 then 5 else 4),
           trace := s.trace ++
             [Ev.writeReg NUMICRO_FLASH_ISPADR
                (s.bank.base + (s.bank.sectors.getD i ⟨0, 0, 0, 0⟩).offset),
              Ev.writeReg NUMICRO_FLASH_ISPTRG ISPTRG_ISPGO] ++
             (if v &&& ISPCON_ISPFF != 0 then
                [Ev.writeReg NUMICRO_FLASH_ISPCON (v ||| ISPCON_ISPFF)]
              else []) }) := by
  simp only [eraseSector, M.bind, target_write_u32, hae]
  rw [pollZero_immediate h 100 _ (hae _) (htrg _)]
  simp only [ispffClear, M.bind, M.pure, target_read_u32, target_write_u32, hae, hcon]
  cases hb : (v &&& ISPCON_ISPFF != 0) with
  | true =>
    simp only [hb, if_true]
    simp [target_write_u32, hae, St.tick, St.addEv, List.append_assoc, add_assoc]
  | false =>
    simp [hb, M.pure, St.tick, St.addEv, List.append_assoc, add_assoc]

/-- The erase loop over any index list on such a host: four or five
accesses per sector and the `eraseTrace` writes; the bank and every
other state component are untouched. -/
theorem eraseLoop_run (h : Host) (v : Nat)
    (hae : ∀ k, h.accessErr k = none)
    (htrg : ∀ k, h.readVal NUMICRO_FLASH_ISPTRG k = 0)
    (hcon : ∀ k, h.readVal NUMICRO_FLASH_ISPCON k = v) :
    ∀ (l : List Nat) (s : St),
      eraseLoop h l s =
        (Except.ok (),
         { s with
             idx := s.idx + l.length * (if v &&& ISPCON_ISPFF != 0 then 5 else 4),
             trace := s.trace ++ eraseTrace s.bank.base s.bank.sectors v l }) := by
  intro l
  induction l with
  | nil =>
    intro s
    simp [eraseLoop, M.pure, eraseTrace]
  | cons i rest ih =>
    intro s
    have hsec := eraseSector_run h v hae htrg hcon i s
    simp only [eraseLoop, M.bind, hsec]
    rw [ih]
    simp [eraseTrace, List.append_assoc]
    split <;> omega

/-- C2 amended: on a halted device whose accesses succeed, whose unlock
check reads unprotected, whose erase polls complete at once, and whose
control register reads a value `v` with the failure flag set, the erase
of `first..last` does not abort: it clears the flag after every sector
(the write-back appears in the trace once per sector, inside
`eraseTrace`), processes the whole range, returns OK, and leaves the
bank untouched. -/
theorem c2_amended_erase_clears_and_continues (h : Host) (v first last : Nat) (s : St)
    (hh : h.halted = true)
    (hae : ∀ k, h.accessErr k = none)
    (hwr : ∀ k, h.readVal NUMICRO_SYS_WRPROT k = 1)
    (htrg : ∀ k, h.readVal NUMICRO_FLASH_ISPTRG k = 0)
    (hcon : ∀ k, h.readVal NUMICRO_FLASH_ISPCON k = v)
    (hff : v &&& ISPCON_ISPFF ≠ 0) :
    numicro_erase h first last s =
      (Except.ok (),
       { s with
           idx := s.idx + 8 + (last + 1 - first) * 5,
           trace := s.trace ++ initTrace h s.idx ++
             [Ev.writeReg NUMICRO_FLASH_ISPCMD ISPCMD_ERASE] ++
             eraseTrace s.bank.base s.bank.sectors v
               (List.range' first (last + 1 - first)) }) := by
  simp only [numicro_erase, hh, Bool.true_eq_false, if_false, M.bind]
  rw [numicro_init_isp_run h s hh hae hwr]
  simp only [target_write_u32, hae]
  rw [eraseLoop_run h v hae htrg hcon]
  simp [St.tick, St.addEv, List.append_assoc, hff]

/-- C2 witness: the amended theorem applied to `hostFF`, whose ISPCON
always reads 0x40 (failure flag set): the two-sector erase returns OK. -/
theorem c2_witness :
    (numicro_erase hostFF 0 1 (st0 bank2)).1 = Except.ok () := by
  rw [c2_amended_erase_clears_and_continues hostFF 64 0 1 (st0 bank2) rfl
    (fun k => rfl) (fun k => rfl) (fun k => rfl) (fun k => rfl) (by decide)]

/-! ### C5: the erase command is written once, not once per sector -/

/-- The erase loop itself never writes the command register. -/
theorem count_ispcmd_eraseTrace (base : Nat) (secs : List Sector) (v : Nat)
    (l : List Nat) :
    (eraseTrace base secs v l).count
      (Ev.writeReg NUMICRO_FLASH_ISPCMD ISPCMD_ERASE) = 0 := by
  induction l with
  | nil => simp [eraseTrace]
  | cons i rest ih =>
    simp only [eraseTrace, List.count_append, ih]
    split <;>
      simp +decide [List.count_cons, List.count_nil, NUMICRO_FLASH_ISPADR,
        NUMICRO_FLASH_ISPTRG, NUMICRO_FLASH_ISPCON, NUMICRO_FLASH_ISPCMD]

/-- C5 amended: under the same good-host conditions with a clean ISPCON
read-back, `numicro_erase` writes the erase command code exactly once,
before the sector loop; each sector then gets only its address write and
GO trigger.  The second conjunct counts the command write: one more than
whatever the starting trace contained, independent of the number of
sectors in the range. -/
theorem c5_amended_command_once (h : Host) (first last : Nat) (s : St)
    (hh : h.halted = true)
    (hae : ∀ k, h.accessErr k = none)
    (hwr : ∀ k, h.readVal NUMICRO_SYS_WRPROT k = 1)
    (htrg : ∀ k, h.readVal NUMICRO_FLASH_ISPTRG k = 0)
    (hcon : ∀ k, h.readVal NUMICRO_FLASH_ISPCON k = 0) :
    numicro_erase h first last s =
      (Except.ok (),
       { s with
           idx := s.idx + 8 + (last + 1 - first) * 4,
           trace := s.trace ++ initTrace h s.idx ++
             [Ev.writeReg NUMICRO_FLASH_ISPCMD ISPCMD_ERASE] ++
             eraseTrace s.bank.base s.bank.sectors 0
               (List.range' first (last + 1 - first)) }) ∧
    ((numicro_erase h first last s).2).trace.count
        (Ev.writeReg NUMICRO_FLASH_ISPCMD ISPCMD_ERASE) =
      s.trace.count (Ev.writeReg NUMICRO_FLASH_ISPCMD ISPCMD_ERASE) + 1 := by
  have hrun : numicro_erase h first last s =
      (Except.ok (),
       { s with
           idx := s.idx + 8 + (last + 1 - first) * 4,
           trace := s.trace ++ initTrace h s.idx ++
             [Ev.writeReg NUMICRO_FLASH_ISPCMD ISPCMD_ERASE] ++
             eraseTrace s.bank.base s.bank.sectors 0
               (List.range' first (last + 1 - first)) }) := by
    simp only [numicro_erase, hh, Bool.true_eq_false, if_false, M.bind]
    rw [numicro_init_isp_run h s hh hae hwr]
    simp only [target_write_u32, hae]
    rw [eraseLoop_run h 0 hae htrg hcon]
    simp [St.tick, St.addEv, List.append_assoc]
  refine ⟨hrun, ?_⟩
  rw [hrun]
  simp only [List.count_append, count_ispcmd_eraseTrace]
  simp +decide [initTrace, List.count_cons, List.count_nil,
    NUMICRO_SYSCLK_AHBCLK, NUMICRO_FLASH_ISPCON, NUMICRO_FLASH_CHEAT,
    NUMICRO_FLASH_ISPCMD]

/-- C5 witness: on `hostOk`, after erasing the two-sector range from an
empty trace, the command register write appears exactly once. -/
theorem c5_witness :
    ((numicro_erase hostOk 0 1 (st0 bank2)).2).trace.count
      (Ev.writeReg NUMICRO_FLASH_ISPCMD ISPCMD_ERASE) = 1 := by
  have := (c5_amended_command_once hostOk 0 1 (st0 bank2) rfl
    (fun k => rfl) (fun k => rfl) (fun k => rfl) (fun k => rfl)).2
  simpa [st0] using this

/-! ### Former C5 counterexample section -/

set_option maxHeartbeats 8000000 in
/-- C5 counterexample: a successful erase of the two-sector range writes
the erase command code to the command register exactly once in total,
not once per sector. -/
theorem c5_counterexample :
    (numicro_erase hostOk 0 1 (st0 bank2)).1 = Except.ok () ∧
    ((numicro_erase hostOk 0 1 (st0 bank2)).2.trace.count
      (Ev.writeReg NUMICRO_FLASH_ISPCMD ISPCMD_ERASE)) = 1 := by
  decide

end Numicro
